import Mathlib

/-!
# Thread instances (src/src/Thread/Thread.cpp)

A shallow embedding of the thread-instance registry, scene activation, stage
advancement and permutation cycling of `Thread::Instance`.

Pointers to engine and registry objects (`RE::Actor*`, `RE::TESQuest*`,
`const Registry::Scene*`, ...) are handles compared by identity and are
modelled as natural numbers; a pointer that the code may leave null is an
`Option`.  The registry, the transform arithmetic, the animation-graph and the
scene menu are not part of `Thread.cpp`; every call into them goes through the
`Env` record below, and every externally visible call the code makes is
recorded as an `Event`.
-/

namespace Thread

/-! ## Handles and plain data -/

/-- Identity of an `RE::Actor*`. -/
abbrev Actor := Nat
/-- Identity of the owning `RE::TESQuest*` (its form id). -/
abbrev Quest := Nat
/-- Identity of an `RE::TESObjectREFR*`. -/
abbrev Ref := Nat
/-- Identity of a `const Registry::Scene*`. -/
abbrev Scene := Nat
/-- Identity of a `const Registry::Stage*`. -/
abbrev Stage := Nat
/-- Identity of a `const Registry::Expression*`. -/
abbrev Expression := Nat
/-- Identity of a `const Registry::Voice*`. -/
abbrev Voice := Nat
/-- Value of a `Registry::FurnitureType`. -/
abbrev FurnitureType := Nat
/-- Handle of the furniture details the library keeps for a reference. -/
abbrev FurnitureDetails := Nat
/-- Handle returned by `NiNode::NiUpdate::Register`. -/
abbrev NiHandle := Nat
/-- One assignment: the actor placed at each slot index, `std::vector<RE::Actor*>`. -/
abbrev Assignment := List Actor

/-- World coordinate (`Registry::Coordinate`): location and rotation.  The
float fields are carried as integers; only equality of coordinates is used. -/
structure Coordinate where
  x : Int
  y : Int
  z : Int
  rotation : Int
deriving DecidableEq, Repr

/-- Relative offset (`Registry::Transform`), same carrier as `Coordinate`. -/
structure Transform where
  x : Int
  y : Int
  z : Int
  rotation : Int
deriving DecidableEq, Repr

/-- A `Registry::FurnitureOffset`: the furniture family and the chosen offset. -/
structure FurnitureOffset where
  type : FurnitureType
  offset : Transform
deriving DecidableEq, Repr

/-- A `Registry::ActorFragment`: the actor and its matching-relevant traits. -/
structure ActorFragment where
  actor : Actor
  sex : Nat
  race : Nat
  scale : Int
deriving DecidableEq, Repr

/-- Accessor `ActorFragment::GetActor`. -/
def ActorFragment.GetActor (f : ActorFragment) : Actor := f.actor

/-- Per-actor runtime state, `Instance::Position`.  `uniquePermutations` is
assigned from a `uint8_t` tally. -/
structure Position where
  data : ActorFragment
  expression : Option Expression
  voice : Option Voice
  ghostAlpha : Option Int
  uniquePermutations : Nat
deriving DecidableEq, Repr

/-- The anchor of a thread, `Instance::Center`.  `ref` is what `GetRef()`
returns; the code dereferences it without a null check. -/
structure Center where
  ref : Ref
  offset : FurnitureOffset
  details : Option FurnitureDetails
deriving DecidableEq, Repr

/-- Values of `FurniturePreference` (SexLabRegistry.h). -/
inductive FurniturePreference where
  | Disallow
  | Default
  | Prefer
deriving DecidableEq, Repr

/-- Values of `Registry::Scene::NodeType`; the code only tests against `None`. -/
inductive NodeType where
  | None
  | Root
  | Default
  | Sink
deriving DecidableEq, Repr

/-- State of one `Thread::Instance`.  `activeAssignment` is the iterator into
`assignments`, kept as the index it points at; an index that is not below
`assignments.length` is an iterator that points at no element. -/
structure Instance where
  linkedQst : Quest
  positions : List Position
  scenes : List (List Scene)
  activeScene : Option Scene
  activeStage : Option Stage
  assignments : List Assignment
  activeAssignment : Nat
  center : Center
  baseCoordinates : Coordinate
  furniturePreference : FurniturePreference
  niInstance : Option NiHandle
deriving DecidableEq, Repr

/-! ## Observable effects -/

/-- Severity of a `logger::` call. -/
inductive LogLevel where
  | info
  | warn
  | error
deriving DecidableEq, Repr

/-- The distinct log lines of `Thread.cpp`. -/
inductive LogMsg where
  | instanceAlreadyExists
  | failedToCreateInstance
  | sceneNotCompatibleWithCenter
  | sceneHasNoValidAssignments
  | actorNotPartOfScene
  | actorNotPartOfAssignment
  | noAlternativePermutations
  | changedToPermutation
  | mismatchedFurnitureType
  | referenceNotCompatible
  | actorNotInGhostMode
deriving DecidableEq, Repr

/-- Calls that leave the instance: log lines, actor placement, menu refreshes. -/
inductive Event where
  | log (level : LogLevel) (msg : LogMsg)
  | niRegister (formID : Quest) (actors : Assignment) (scene : Scene)
  | setScale (actor : Actor) (race : Nat) (scale : Int)
  | setAngle (actor : Actor) (rotation : Int)
  | setPosition (actor : Actor) (coordinate : Coordinate)
  | update3DPosition (actor : Actor)
  | notifyAnimationGraph (actor : Actor) (animationEvent : Nat)
  | setAlpha (actor : Actor) (alpha : Int)
  | forceRefTo (ref : Ref)
  | menuUpdateStageInfo
  | menuUpdateActiveScene
deriving DecidableEq, Repr

/-- Ways a call can end other than by returning. -/
inductive Fault where
  | assertion
  | invalidDereference
  | runtimeError
deriving DecidableEq, Repr

/-- Result of a call that may not return normally. -/
inductive Outcome (α : Type) where
  | ok (result : α)
  | fail (fault : Fault)
deriving DecidableEq, Repr

/-- The result of a call that returned normally. -/
def Outcome.toOption {α : Type} : Outcome α → Option α
  | Outcome.ok result => some result
  | Outcome.fail _ => none

/-- Return value, instance state and emitted events of a member function. -/
structure Ret (α : Type) where
  value : α
  state : Instance
  events : List Event
deriving DecidableEq, Repr

/-- Return value, registry contents and emitted events of a static registry
function. -/
structure RegRet (α : Type) where
  value : α
  instances : List Instance
  events : List Event
deriving DecidableEq, Repr

/-! ## External collaborators -/

/-- Everything `Thread.cpp` calls but does not define. -/
structure Env where
  /-- The `Instance` constructor; `none` stands for a thrown `std::exception`. -/
  Construct : Quest → List Actor → List (List Scene) → FurniturePreference → Option Instance
  /-- Registry query `Scene::IsCompatibleFurniture`. -/
  IsCompatibleFurniture : Scene → FurnitureType → Bool
  /-- Registry query `Scene::FindAssignments`. -/
  FindAssignments : Scene → List ActorFragment → List Assignment
  /-- Registry query `Scene::GetStageNodeType`. -/
  GetStageNodeType : Scene → Stage → NodeType
  /-- Field `furnitureOffset` of a scene. -/
  SceneFurnitureOffset : Scene → Transform
  /-- Offset of `a_stage->positions[i]`. -/
  StagePositionOffset : Stage → Nat → Transform
  /-- Race of `GetNthPosition(i)->data`. -/
  PositionRace : Scene → Nat → Nat
  /-- Scale of `GetNthPosition(i)->data`. -/
  PositionScale : Scene → Nat → Int
  /-- Registry query `Scene::GetNthAnimationEvent`. -/
  GetNthAnimationEvent : Scene → Stage → Nat → Nat
  /-- Arithmetic of `Transform::ApplyReturn(Coordinate)` and `Transform::Apply`. -/
  ApplyReturn : Transform → Coordinate → Coordinate
  /-- Arithmetic of `Transform::ApplyReturn(RE::TESObjectREFR*)`. -/
  ApplyReturnRef : Transform → Ref → Coordinate
  /-- Library query `GetFurnitureDetails`. -/
  GetFurnitureDetails : Ref → Option FurnitureDetails
  /-- Query `FurnitureDetails::GetClosestCoordinatesInBound`. -/
  GetClosestCoordinatesInBound : FurnitureDetails → Ref → FurnitureType → Ref → List FurnitureOffset
  /-- Test `FurnitureType::IsNone`. -/
  TypeIsNone : FurnitureType → Bool
  /-- The value-initialised `Registry::FurnitureOffset`. -/
  DefaultFurnitureOffset : FurnitureOffset
  /-- Result of `NiNode::NiUpdate::Register`. -/
  NiRegister : Quest → Assignment → Scene → NiHandle
  /-- Test `Interface::SceneMenu::IsInstance(this)`. -/
  ControlsMenu : Quest → Bool
  /-- Current alpha of an actor, `Actor::GetAlpha`. -/
  GetAlpha : Actor → Int
  /-- Setting `fGhostModeAlpha`. -/
  GhostModeAlpha : Int

/-! ## Machine integers -/

/-- Value of an integer after conversion to `int32_t` (two's complement wrap). -/
def toInt32 (z : Int) : Int := (z + 2147483648) % 4294967296 - 2147483648

/-- Comparison `size == target` of a `size_t` with an `int32_t`: the signed
operand is converted to the unsigned 64-bit type first. -/
def sizeEqInt32 (size : Nat) (target : Int) : Bool :=
  decide ((size : Int) % 18446744073709551616 = target % 18446744073709551616)

/-- Post-increment of a `uint8_t`. -/
def incrUInt8 (v : Nat) : Nat := (v + 1) % 256

/-! ## Instance registry (Thread.cpp 10-39) -/

/-- Lookup `Instance::GetInstance`: the first live instance owned by the quest. -/
def GetInstance : List Instance → Quest → Option Instance
  | [], _ => none
  | inst :: rest, a_linkedQst =>
    if inst.linkedQst = a_linkedQst then some inst else GetInstance rest a_linkedQst

/-- Modelled from the spec: the `Instance` constructor is declared in Thread.h,
which is not among the sources.  The owning key is the constructor argument
and is immutable after creation; every other field is whatever the
constructor computes (`Env.Construct`), and `none` is a thrown exception. -/
def makeInstance (env : Env) (a_linkedQst : Quest) (a_submissives : List Actor)
    (a_scenes : List (List Scene)) (a_furniturePreference : FurniturePreference) :
    Option Instance :=
  match env.Construct a_linkedQst a_submissives a_scenes a_furniturePreference with
  | none => none
  | some built => some { built with linkedQst := a_linkedQst }

/-- Registration `Instance::CreateInstance`. -/
def CreateInstance (env : Env) (instances : List Instance) (a_linkedQst : Quest)
    (a_submissives : List Actor) (a_scenes : List (List Scene))
    (a_furniturePreference : FurniturePreference) : RegRet Bool :=
  match GetInstance instances a_linkedQst with
  | some _ =>
    { value := false, instances := instances,
      events := [Event.log LogLevel.warn LogMsg.instanceAlreadyExists] }
  | none =>
    match makeInstance env a_linkedQst a_submissives a_scenes a_furniturePreference with
    | some inst =>
      { value := true, instances := instances ++ [inst], events := [] }
    | none =>
      { value := false, instances := instances,
        events := [Event.log LogLevel.error LogMsg.failedToCreateInstance] }

/-- Removal `Instance::DestroyInstance`: `std::erase_if` on the owning key. -/
def DestroyInstance (instances : List Instance) (a_linkedQst : Quest) : List Instance :=
  instances.filter (fun inst => !(decide (inst.linkedQst = a_linkedQst)))

/-- One registry call of an external driver. -/
inductive RegistryCall where
  | create (a_linkedQst : Quest) (a_submissives : List Actor) (a_scenes : List (List Scene))
      (a_furniturePreference : FurniturePreference)
  | destroy (a_linkedQst : Quest)

/-- Registry contents after one call. -/
def applyCall (env : Env) (instances : List Instance) : RegistryCall → List Instance
  | RegistryCall.create k actors scenes pref =>
    (CreateInstance env instances k actors scenes pref).instances
  | RegistryCall.destroy k => DestroyInstance instances k

/-- Registry contents after a sequence of calls, oldest first. -/
def runCalls (env : Env) (instances : List Instance) (calls : List RegistryCall) :
    List Instance :=
  calls.foldl (applyCall env) instances

/-! ## Stage advancement (Thread.cpp 74-98) -/

/-- Body of the placement loop of `AdvanceScene`, from slot index `i` on. -/
def placeActors (env : Env) (baseCoordinates : Coordinate) (scene : Scene) (a_nextStage : Stage) :
    List Actor → Nat → List Event
  | [], _ => []
  | actor :: rest, i =>
    let coordinate := env.ApplyReturn (env.StagePositionOffset a_nextStage i) baseCoordinates
    [ Event.setScale actor (env.PositionRace scene i) (env.PositionScale scene i),
      Event.setAngle actor coordinate.rotation,
      Event.setPosition actor coordinate,
      Event.update3DPosition actor,
      Event.notifyAnimationGraph actor (env.GetNthAnimationEvent scene a_nextStage i) ]
      ++ placeActors env baseCoordinates scene a_nextStage rest (i + 1)

/-- Member `Instance::AdvanceScene`.  The `assert` is a fault when it fails, and
so is dereferencing an `activeAssignment` that points at no assignment. -/
def AdvanceScene (env : Env) (self : Instance) (a_nextStage : Option Stage) :
    Outcome (Ret Unit) :=
  match self.activeScene, a_nextStage with
  | some scene, some stage =>
    if env.GetStageNodeType scene stage = NodeType.None then Outcome.fail Fault.assertion
    else
      match self.assignments[self.activeAssignment]? with
      | none => Outcome.fail Fault.invalidDereference
      | some actors =>
        let registered : Option NiHandle × List Event :=
          match self.niInstance with
          | none =>
            (some (env.NiRegister self.linkedQst actors scene),
              [Event.niRegister self.linkedQst actors scene])
          | some handle => (some handle, [])
        Outcome.ok
          { value := (),
            state := { self with niInstance := registered.1, activeStage := some stage },
            events := registered.2
              ++ placeActors env self.baseCoordinates scene stage actors 0
              ++ (if env.ControlsMenu self.linkedQst then [Event.menuUpdateStageInfo] else []) }
  | _, _ => Outcome.fail Fault.assertion

/-! ## Scene activation (Thread.cpp 100-133) -/

/-- The fold of `SetActiveScene` that collects `it.data` of every position. -/
def collectFragments (positions : List Position) : List ActorFragment :=
  positions.foldl (fun acc it => acc ++ [it.data]) []

/-- Statement `positionCounts[actor]++` on a `std::map<RE::Actor*, uint8_t>`;
a key that is absent reads as 0. -/
def tallyActor (positionCounts : Actor → Nat) (actor : Actor) : Actor → Nat :=
  fun key => if key = actor then incrUInt8 (positionCounts key) else positionCounts key

/-- The nested tally loop of `SetActiveScene` over all slots of all assignments. -/
def tallyAssignments (assignments : List Assignment) : Actor → Nat :=
  assignments.foldl (fun counts permutation => permutation.foldl tallyActor counts) (fun _ => 0)

/-- Member `Instance::SetActiveScene`. -/
def SetActiveScene (env : Env) (self : Instance) (a_scene : Scene) : Ret Bool :=
  if env.IsCompatibleFurniture a_scene self.center.offset.type = false then
    { value := false, state := self,
      events := [Event.log LogLevel.warn LogMsg.sceneNotCompatibleWithCenter] }
  else
    let fragments := collectFragments self.positions
    let newAssignments := env.FindAssignments a_scene fragments
    if newAssignments.isEmpty then
      { value := false, state := self,
        events := [Event.log LogLevel.warn LogMsg.sceneHasNoValidAssignments] }
    else
      let positionCounts := tallyAssignments newAssignments
      { value := true,
        state :=
          { self with
            assignments := newAssignments,
            activeScene := some a_scene,
            positions := self.positions.map
              (fun p => { p with uniquePermutations := positionCounts p.data.GetActor }),
            baseCoordinates := env.ApplyReturn (env.SceneFurnitureOffset a_scene)
              (env.ApplyReturnRef self.center.offset.offset self.center.ref),
            activeAssignment := 0 },
        events := if env.ControlsMenu self.linkedQst then [Event.menuUpdateActiveScene] else [] }

/-! ## Per-actor accessors (Thread.cpp 157-325) -/

/-- Lookup `Instance::GetPosition`: the first position bound to the actor. -/
def findPosition : List Position → Actor → Option Position
  | [], _ => none
  | position :: rest, a_actor =>
    if position.data.GetActor = a_actor then some position else findPosition rest a_actor

/-- Member `Instance::GetPosition`. -/
def GetPosition (self : Instance) (a_actor : Actor) : Option Position :=
  findPosition self.positions a_actor

/-- Write through the pointer returned by `GetPosition`: the first position
bound to the actor is replaced by `f` of it. -/
def updatePosition (f : Position → Position) : List Position → Actor → List Position
  | [], _ => []
  | position :: rest, a_actor =>
    if position.data.GetActor = a_actor then f position :: rest
    else position :: updatePosition f rest a_actor

/-- Member `Instance::GetExpression`. -/
def GetExpression (self : Instance) (a_actor : Actor) : Option Expression × List Event :=
  match GetPosition self a_actor with
  | none => (none, [Event.log LogLevel.warn LogMsg.actorNotPartOfScene])
  | some position => (position.expression, [])

/-- Member `Instance::SetExpression`. -/
def SetExpression (self : Instance) (a_actor : Actor) (a_expression : Option Expression) :
    Ret Unit :=
  match GetPosition self a_actor with
  | none =>
    { value := (), state := self, events := [Event.log LogLevel.warn LogMsg.actorNotPartOfScene] }
  | some _ =>
    { value := (),
      state := { self with
        positions := updatePosition (fun p => { p with expression := a_expression })
          self.positions a_actor },
      events := [] }

/-- Member `Instance::GetVoice`. -/
def GetVoice (self : Instance) (a_actor : Actor) : Option Voice × List Event :=
  match GetPosition self a_actor with
  | none => (none, [Event.log LogLevel.warn LogMsg.actorNotPartOfScene])
  | some position => (position.voice, [])

/-- Member `Instance::SetVoice`. -/
def SetVoice (self : Instance) (a_actor : Actor) (a_voice : Option Voice) : Ret Unit :=
  match GetPosition self a_actor with
  | none =>
    { value := (), state := self, events := [Event.log LogLevel.warn LogMsg.actorNotPartOfScene] }
  | some _ =>
    { value := (),
      state := { self with
        positions := updatePosition (fun p => { p with voice := a_voice })
          self.positions a_actor },
      events := [] }

/-- Member `Instance::IsGhostMode`. -/
def IsGhostMode (self : Instance) (a_actor : Actor) : Bool × List Event :=
  match GetPosition self a_actor with
  | none => (false, [Event.log LogLevel.warn LogMsg.actorNotPartOfScene])
  | some position => (position.ghostAlpha.isSome, [])

/-- Member `Instance::SetGhostMode`. -/
def SetGhostMode (env : Env) (self : Instance) (a_actor : Actor) (a_ghostMode : Bool) :
    Ret Unit :=
  match GetPosition self a_actor with
  | none =>
    { value := (), state := self, events := [Event.log LogLevel.warn LogMsg.actorNotPartOfScene] }
  | some position =>
    if a_ghostMode then
      { value := (),
        state :=
          match position.ghostAlpha with
          | some _ => self
          | none => { self with
              positions := updatePosition
                (fun p => { p with ghostAlpha := some (env.GetAlpha a_actor) })
                self.positions a_actor },
        events := [Event.setAlpha a_actor env.GhostModeAlpha] }
    else
      match position.ghostAlpha with
      | some alpha =>
        { value := (),
          state := { self with
            positions := updatePosition (fun p => { p with ghostAlpha := none })
              self.positions a_actor },
          events := [Event.setAlpha a_actor alpha] }
      | none =>
        { value := (), state := self,
          events := [Event.log LogLevel.warn LogMsg.actorNotInGhostMode, Event.setAlpha a_actor 1] }

/-- Member `Instance::GetUniquePermutations`. -/
def GetUniquePermutations (self : Instance) (a_actor : Actor) : Int × List Event :=
  match GetPosition self a_actor with
  | none => (0, [Event.log LogLevel.warn LogMsg.actorNotPartOfScene])
  | some position => ((position.uniquePermutations : Int), [])

/-! ## Permutation cycling (Thread.cpp 327-377) -/

/-- The loop of `GetCurrentPermutation` from the assignment at index `i` on:
`std::find` gives the first slot holding the actor (the size when there is
none), the slot is inserted into the `std::set`, and the set size is returned
at the active assignment.  `none` is the loop running off the end. -/
def currentPermutationScan (a_actor : Actor) (activeAssignment : Nat) :
    List Assignment → Nat → List Nat → Option Int
  | [], _, _ => none
  | it :: rest, i, seenPermutations =>
    let idx := it.indexOf a_actor
    let seen := seenPermutations.insert idx
    if i = activeAssignment then some (toInt32 (seen.length : Int))
    else currentPermutationScan a_actor activeAssignment rest (i + 1) seen

/-- Member `Instance::GetCurrentPermutation`. -/
def GetCurrentPermutation (self : Instance) (a_actor : Actor) : Outcome (Int × List Event) :=
  match GetPosition self a_actor with
  | none => Outcome.ok (0, [Event.log LogLevel.error LogMsg.actorNotPartOfScene])
  | some _ =>
    match currentPermutationScan a_actor self.activeAssignment self.assignments 0 [] with
    | some size => Outcome.ok (size, [])
    | none => Outcome.fail Fault.runtimeError

/-- How the loop of `SetNextPermutation` ends. -/
inductive ScanResult where
  | notInAssignment
  | found (it : Nat)
  | exhausted
deriving DecidableEq, Repr

/-- The loop of `SetNextPermutation` from the assignment at index `i` on. -/
def nextPermutationScan (a_actor : Actor) (targetPermutation : Int) :
    List Assignment → Nat → List Nat → ScanResult
  | [], _, _ => ScanResult.exhausted
  | it :: rest, i, seenPermutations =>
    let idx := it.indexOf a_actor
    if idx = it.length then ScanResult.notInAssignment
    else if ¬ (idx ∈ seenPermutations) then
      let seen := seenPermutations.insert idx
      if sizeEqInt32 seen.length targetPermutation then ScanResult.found i
      else nextPermutationScan a_actor targetPermutation rest (i + 1) seen
    else nextPermutationScan a_actor targetPermutation rest (i + 1) seenPermutations

/-- The target of `SetNextPermutation`: one past the current permutation in
`int32_t` arithmetic, back to 1 when that exceeds `uniquePermutations`. -/
def nextTarget (current : Int) (uniquePermutations : Nat) : Int :=
  let targetPermutation := toInt32 (current + 1)
  if targetPermutation > (uniquePermutations : Int) then 1 else targetPermutation

/-- Member `Instance::SetNextPermutation`. -/
def SetNextPermutation (env : Env) (self : Instance) (a_actor : Actor) : Outcome (Ret Unit) :=
  match GetPosition self a_actor with
  | none =>
    Outcome.ok { value := (), state := self,
                 events := [Event.log LogLevel.error LogMsg.actorNotPartOfScene] }
  | some position =>
    if position.uniquePermutations < 2 then
      Outcome.ok { value := (), state := self,
                   events := [Event.log LogLevel.info LogMsg.noAlternativePermutations] }
    else
      match GetCurrentPermutation self a_actor with
      | Outcome.fail fault => Outcome.fail fault
      | Outcome.ok (current, logged) =>
        let targetPermutation := nextTarget current position.uniquePermutations
        match nextPermutationScan a_actor targetPermutation self.assignments 0 [] with
        | ScanResult.notInAssignment =>
          Outcome.ok { value := (), state := self,
                       events := logged ++ [Event.log LogLevel.warn LogMsg.actorNotPartOfAssignment] }
        | ScanResult.exhausted =>
          Outcome.ok { value := (), state := self,
                       events := logged ++ [Event.log LogLevel.warn LogMsg.noAlternativePermutations] }
        | ScanResult.found it =>
          match AdvanceScene env { self with activeAssignment := it } self.activeStage with
          | Outcome.fail fault => Outcome.fail fault
          | Outcome.ok advanced =>
            Outcome.ok { value := (), state := advanced.state,
                         events := logged ++ advanced.events
                           ++ [Event.log LogLevel.info LogMsg.changedToPermutation] }

/-- State after `n` successive calls of `SetNextPermutation` for one actor. -/
def cyclePermutation (env : Env) (a_actor : Actor) : Nat → Instance → Outcome Instance
  | 0, self => Outcome.ok self
  | n + 1, self =>
    match SetNextPermutation env self a_actor with
    | Outcome.fail fault => Outcome.fail fault
    | Outcome.ok r => cyclePermutation env a_actor n r.state

/-! ## Re-anchoring (Thread.cpp 41-47, 196-223) -/

/-- Member `Instance::Center::SetReference`. -/
def Center.SetReference (env : Env) (_center : Center) (a_ref : Ref) (a_offset : FurnitureOffset) :
    Center :=
  { ref := a_ref, offset := a_offset, details := env.GetFurnitureDetails a_ref }

/-- The tail of `ReplaceCenterRef` after the center was replaced: recompute
`baseCoordinates` and re-run stage advancement. -/
def recenter (env : Env) (self : Instance) (logged : List Event) : Outcome (Ret Bool) :=
  match self.activeScene with
  | none => Outcome.fail Fault.invalidDereference
  | some scene =>
    let moved := { self with
      baseCoordinates := env.ApplyReturn (env.SceneFurnitureOffset scene)
        (env.ApplyReturnRef self.center.offset.offset self.center.ref) }
    match AdvanceScene env moved moved.activeStage with
    | Outcome.fail fault => Outcome.fail fault
    | Outcome.ok advanced =>
      Outcome.ok { value := true, state := advanced.state, events := logged ++ advanced.events }

/-- Member `Instance::ReplaceCenterRef`.  The furniture details are looked up
for the current `center.GetRef()` and stored in `center.details` before any
check. -/
def ReplaceCenterRef (env : Env) (self : Instance) (a_ref : Ref) : Outcome (Ret Bool) :=
  if a_ref = self.center.ref then
    Outcome.ok { value := false, state := self, events := [] }
  else
    let details := env.GetFurnitureDetails self.center.ref
    let looked := { self with center := { self.center with details := details } }
    match details with
    | none =>
      if env.TypeIsNone looked.center.offset.type = false then
        Outcome.ok { value := false, state := looked,
                     events := [Event.log LogLevel.warn LogMsg.mismatchedFurnitureType] }
      else
        recenter env
          { looked with
            center := Center.SetReference env looked.center a_ref env.DefaultFurnitureOffset }
          [Event.forceRefTo a_ref]
    | some found =>
      match env.GetClosestCoordinatesInBound found a_ref looked.center.offset.type
          looked.center.ref with
      | [] =>
        Outcome.ok { value := false, state := looked,
                     events := [Event.log LogLevel.warn LogMsg.referenceNotCompatible] }
      | front :: _ =>
        recenter env
          { looked with center := Center.SetReference env looked.center a_ref front }
          [Event.forceRefTo a_ref]

/-! ## Counting slots, as the specification words it -/

/-- Slot indices of an assignment at which the actor stands, the first slot
having index `i`. -/
def slotIndices (a_actor : Actor) : Assignment → Nat → List Nat
  | [], _ => []
  | actor :: rest, i =>
    if actor = a_actor then i :: slotIndices a_actor rest (i + 1)
    else slotIndices a_actor rest (i + 1)

/-- Number of distinct slot indices the actor occupies across the given
assignments: a slot counts once however many assignments place the actor
there. -/
def distinctSlotCount (a_actor : Actor) (assignments : List Assignment) : Nat :=
  ((assignments.map (fun permutation => slotIndices a_actor permutation 0)).flatten.dedup).length

/-- Number of times the actor occurs over all slots of all the assignments. -/
def occurrenceCount (a_actor : Actor) (assignments : List Assignment) : Nat :=
  ((assignments.map (fun permutation => permutation.count a_actor))).sum

/-! ## Reading the scans -/

/-- Content of the `std::set` of either permutation scan after the given
assignments were visited, starting from `seenPermutations`. -/
def seenAfter (a_actor : Actor) (seenPermutations : List Nat) (visited : List Assignment) :
    List Nat :=
  visited.foldl (fun seen it => seen.insert (it.indexOf a_actor)) seenPermutations

/-- Number of distinct values `std::find` yields for the actor over
`assignments[0..=k]`: the first slot holding the actor, or the size of an
assignment that does not hold it. -/
def permutationIndexAt (a_actor : Actor) (assignments : List Assignment) (k : Nat) : Nat :=
  (((assignments.take (k + 1)).map (fun it => it.indexOf a_actor)).dedup).length

/-! ## A concrete registry and threads in it -/

/-- A position freshly bound to an actor. -/
def examplePosition (actor : Actor) (uniquePermutations : Nat) : Position :=
  { data := { actor := actor, sex := 0, race := 0, scale := 100 },
    expression := none, voice := none, ghostAlpha := none,
    uniquePermutations := uniquePermutations }

/-- What the constructor builds in `exampleEnv`: one position per actor, staged
around reference 50 without furniture, nothing active yet. -/
def exampleFresh (quest : Quest) (actors : List Actor) (scenes : List (List Scene))
    (pref : FurniturePreference) : Instance :=
  { linkedQst := quest,
    positions := actors.map (fun a => examplePosition a 0),
    scenes := scenes,
    activeScene := none,
    activeStage := none,
    assignments := [],
    activeAssignment := 0,
    center := { ref := 50, offset := { type := 0, offset := { x := 0, y := 0, z := 0, rotation := 0 } },
                details := none },
    baseCoordinates := { x := 0, y := 0, z := 0, rotation := 0 },
    furniturePreference := pref,
    niInstance := none }

/-- An instance of quest 7 in the middle of scene 1 at stage 10, with the
given positions, assignments and cursor. -/
def exampleInstance (positions : List Position) (assignments : List Assignment)
    (activeAssignment : Nat) : Instance :=
  { exampleFresh 7 [] [[1, 2], [], []] FurniturePreference.Default with
    positions := positions,
    activeScene := some 1,
    activeStage := some 10,
    assignments := assignments,
    activeAssignment := activeAssignment,
    niInstance := some 7 }

/-- A registry in which scene 1 lets every actor fill every one of its three
slots (the resolver returns all six bijections of actors 1, 2, 3), scene 2
has two slots with the same property, every other scene admits nobody and
scene 9 needs furniture of a family other than 0.  Stages below 100 are nodes
of every scene. -/
def exampleEnv : Env :=
  { Construct := fun quest actors scenes pref => some (exampleFresh quest actors scenes pref),
    IsCompatibleFurniture := fun scene type => decide (scene ≠ 9 ∨ type ≠ 0),
    FindAssignments := fun scene fragments =>
      if scene = 1 ∧ fragments.map ActorFragment.GetActor = [1, 2, 3] then
        [[1, 2, 3], [1, 3, 2], [2, 1, 3], [2, 3, 1], [3, 1, 2], [3, 2, 1]]
      else if scene = 2 ∧ fragments.map ActorFragment.GetActor = [1, 2] then
        [[1, 2], [2, 1]]
      else [],
    GetStageNodeType := fun _ stage => if stage < 100 then NodeType.Default else NodeType.None,
    SceneFurnitureOffset := fun _ => { x := 0, y := 0, z := 0, rotation := 0 },
    StagePositionOffset := fun stage i =>
      { x := (stage : Int), y := (i : Int), z := 0, rotation := 0 },
    PositionRace := fun _ _ => 0,
    PositionScale := fun _ _ => 100,
    GetNthAnimationEvent := fun scene stage i => scene * 10000 + stage * 100 + i,
    ApplyReturn := fun t c =>
      { x := c.x + t.x, y := c.y + t.y, z := c.z + t.z, rotation := c.rotation + t.rotation },
    ApplyReturnRef := fun t ref =>
      { x := (ref : Int) + t.x, y := t.y, z := t.z, rotation := t.rotation },
    GetFurnitureDetails := fun _ => none,
    GetClosestCoordinatesInBound := fun _ _ _ _ => [],
    TypeIsNone := fun type => decide (type = 0),
    DefaultFurnitureOffset := { type := 0, offset := { x := 0, y := 0, z := 0, rotation := 0 } },
    NiRegister := fun quest _ _ => quest,
    ControlsMenu := fun _ => false,
    GetAlpha := fun _ => 1,
    GhostModeAlpha := 0 }

/-- The instance `CreateInstance` registers in `exampleEnv` for quest 7, actors
1 and 2 and the primary scene 2. -/
def exampleFreshPair : Instance :=
  exampleFresh 7 [1, 2] [[2], [], []] FurniturePreference.Default

/-- The instance `CreateInstance` registers in `exampleEnv` for quest 7, actors
1, 2, 3 and the primary scene 1. -/
def exampleFreshTrio : Instance :=
  exampleFresh 7 [1, 2, 3] [[1], [], []] FurniturePreference.Default

/-- The three-actor thread after its first `SetActiveScene`, for scene 1. -/
def exampleActiveTrio : Instance :=
  (SetActiveScene exampleEnv exampleFreshTrio 1).state

/-- The three-actor thread after `SetActiveScene` for scene 1 and the first
`AdvanceScene`, to stage 10. -/
def exampleRunningTrio : Instance :=
  match AdvanceScene exampleEnv exampleActiveTrio (some 10) with
  | Outcome.ok advanced => advanced.state
  | Outcome.fail _ => exampleActiveTrio

/-- What the constructor builds in `exampleFurnitureEnv`: as `exampleFresh`, but
staged on reference 50 as furniture of family 3 with furniture details 1. -/
def exampleFurnitureFresh (quest : Quest) (actors : List Actor) (scenes : List (List Scene))
    (pref : FurniturePreference) : Instance :=
  { exampleFresh quest actors scenes pref with
    center := { ref := 50,
                offset := { type := 3, offset := { x := 0, y := 0, z := 0, rotation := 0 } },
                details := some 1 } }

/-- The registry of `exampleEnv` with furniture: reference 50 is the only one
with furniture details (handle 1), and those details offer one in-bound
offset of the requested family at whatever reference they are asked about. -/
def exampleFurnitureEnv : Env :=
  { exampleEnv with
    Construct := fun quest actors scenes pref =>
      some (exampleFurnitureFresh quest actors scenes pref),
    GetFurnitureDetails := fun ref => if ref = 50 then some 1 else none,
    GetClosestCoordinatesInBound := fun _ a_ref type _ =>
      [{ type := type, offset := { x := (a_ref : Int), y := 0, z := 0, rotation := 0 } }] }

/-- The thread of actors 1 and 2 on the furniture 50 after `SetActiveScene` for
scene 2 and the first `AdvanceScene`, to stage 10. -/
def exampleFurnitureThread : Instance :=
  match AdvanceScene exampleFurnitureEnv
      (SetActiveScene exampleFurnitureEnv
        (exampleFurnitureFresh 7 [1, 2] [[2], [], []] FurniturePreference.Prefer) 2).state
      (some 10) with
  | Outcome.ok advanced => advanced.state
  | Outcome.fail _ => exampleFurnitureFresh 7 [1, 2] [[2], [], []] FurniturePreference.Prefer

/-! ## Stating the instance properties -/

/-- The data-model invariant on the cursor: if `activeScene` is set,
`assignments` is non-empty and `activeAssignment` points at one of its
elements. -/
abbrev InstanceInvariant (self : Instance) : Prop :=
  self.activeScene.isSome = true →
    self.assignments ≠ [] ∧ self.activeAssignment < self.assignments.length

/-- The actors the positions are bound to, in position order. -/
def boundActors (self : Instance) : List Actor :=
  self.positions.map (fun p => p.data.GetActor)

/-- The data-model invariant on assignments: the bound actors are pairwise
distinct, and every assignment is a bijection of them onto the slots, that
is, a rearrangement of the bound actors with one actor per slot. -/
abbrev AssignmentsAreBijections (self : Instance) : Prop :=
  (boundActors self).Nodup ∧ ∀ it ∈ self.assignments, List.Perm it (boundActors self)

/-- The `SetPosition` calls of a trace, in order: which actor was put at which
world coordinate. -/
def placedAt : List Event → List (Actor × Coordinate)
  | [] => []
  | Event.setPosition actor coordinate :: rest => (actor, coordinate) :: placedAt rest
  | _ :: rest => placedAt rest

/-- World coordinate of every slot as the specification derives it: the
offset of the stage position with the slot's index, applied to
`baseCoordinates`; slots are numbered from `i`. -/
def stageCoordinates (env : Env) (baseCoordinates : Coordinate) (stage : Stage) :
    List Actor → Nat → List (Actor × Coordinate)
  | [], _ => []
  | actor :: rest, i =>
    (actor, env.ApplyReturn (env.StagePositionOffset stage i) baseCoordinates)
      :: stageCoordinates env baseCoordinates stage rest (i + 1)

/-- One call of an external driver into an instance. -/
inductive InstanceCall where
  | setActiveScene (a_scene : Scene)
  | advanceScene (a_nextStage : Option Stage)
  | setNextPermutation (a_actor : Actor)
  | replaceCenterRef (a_ref : Ref)

/-- Instance state after one call that returns. -/
def applyInstanceCall (env : Env) (self : Instance) : InstanceCall → Outcome Instance
  | InstanceCall.setActiveScene a_scene => Outcome.ok (SetActiveScene env self a_scene).state
  | InstanceCall.advanceScene a_nextStage =>
    match AdvanceScene env self a_nextStage with
    | Outcome.ok r => Outcome.ok r.state
    | Outcome.fail fault => Outcome.fail fault
  | InstanceCall.setNextPermutation a_actor =>
    match SetNextPermutation env self a_actor with
    | Outcome.ok r => Outcome.ok r.state
    | Outcome.fail fault => Outcome.fail fault
  | InstanceCall.replaceCenterRef a_ref =>
    match ReplaceCenterRef env self a_ref with
    | Outcome.ok r => Outcome.ok r.state
    | Outcome.fail fault => Outcome.fail fault

/-- Instance state after a sequence of calls, oldest first; the first call
that does not return ends the run. -/
def runInstanceCalls (env : Env) : Instance → List InstanceCall → Outcome Instance
  | self, [] => Outcome.ok self
  | self, call :: rest =>
    match applyInstanceCall env self call with
    | Outcome.ok next => runInstanceCalls env next rest
    | Outcome.fail fault => Outcome.fail fault

/-! ## Registry: lookup, creation, destruction -/

theorem GetInstance_eq_none_iff (instances : List Instance) (k : Quest) :
    GetInstance instances k = none ↔ k ∉ instances.map Instance.linkedQst := by
  induction instances with
  | nil => simp [GetInstance]
  | cons inst rest ih =>
    by_cases h : inst.linkedQst = k
    · simp [GetInstance, h]
    · have h2 : ¬ k = inst.linkedQst := fun e => h e.symm
      simp [GetInstance, h, h2, ih]

theorem makeInstance_linkedQst (env : Env) (k : Quest) (actors : List Actor)
    (scenes : List (List Scene)) (pref : FurniturePreference) (inst : Instance)
    (h : makeInstance env k actors scenes pref = some inst) : inst.linkedQst = k := by
  unfold makeInstance at h
  cases hc : env.Construct k actors scenes pref with
  | none => simp [hc] at h
  | some built =>
    simp [hc] at h
    rw [← h]

theorem keys_nodup_applyCall (env : Env) (instances : List Instance) (call : RegistryCall)
    (h : (instances.map Instance.linkedQst).Nodup) :
    ((applyCall env instances call).map Instance.linkedQst).Nodup := by
  cases call with
  | create k actors scenes pref =>
    cases hg : GetInstance instances k with
    | some found => simpa [applyCall, CreateInstance, hg] using h
    | none =>
      have hk := (GetInstance_eq_none_iff instances k).mp hg
      cases hm : makeInstance env k actors scenes pref with
      | none => simpa [applyCall, CreateInstance, hg, hm] using h
      | some inst =>
        have hq := makeInstance_linkedQst env k actors scenes pref inst hm
        simp only [applyCall, CreateInstance, hg, hm, List.map_append, List.map_cons,
          List.map_nil, hq]
        refine List.Nodup.append h (List.nodup_singleton k) ?_
        intro x hx hx2
        have : x = k := by simpa using hx2
        exact hk (this ▸ hx)
  | destroy k =>
    unfold applyCall DestroyInstance
    exact h.sublist ((List.filter_sublist instances).map Instance.linkedQst)

theorem keys_nodup_runCalls (env : Env) (calls : List RegistryCall) :
    ∀ instances : List Instance, (instances.map Instance.linkedQst).Nodup →
      ((runCalls env instances calls).map Instance.linkedQst).Nodup := by
  induction calls with
  | nil => intro instances h; simpa [runCalls] using h
  | cons call rest ih =>
    intro instances h
    have := ih (applyCall env instances call) (keys_nodup_applyCall env instances call h)
    simpa [runCalls] using this

/-- C1: when `GetInstance k` already finds an instance, `CreateInstance` for the
key `k` returns false, and the list of live instances (the existing instance
with its whole state included) is the list it was called on; all it does is
log a warning. -/
theorem CreateInstance_existing_key (env : Env) (instances : List Instance) (k : Quest)
    (actors : List Actor) (scenes : List (List Scene)) (pref : FurniturePreference)
    (h : (GetInstance instances k).isSome = true) :
    (CreateInstance env instances k actors scenes pref).value = false ∧
    (CreateInstance env instances k actors scenes pref).instances = instances ∧
    (CreateInstance env instances k actors scenes pref).events
      = [Event.log LogLevel.warn LogMsg.instanceAlreadyExists] := by
  unfold CreateInstance
  cases hg : GetInstance instances k with
  | none => simp [hg] at h
  | some found => simp

theorem CreateInstance_existing_key_witness :
    (GetInstance [exampleFreshTrio] 7).isSome = true ∧
    (CreateInstance exampleEnv [exampleFreshTrio] 7 [4, 5] [[2], [], []] FurniturePreference.Prefer).value
      = false ∧
    (CreateInstance exampleEnv [exampleFreshTrio] 7 [4, 5] [[2], [], []]
      FurniturePreference.Prefer).instances = [exampleFreshTrio] :=
  ⟨by decide,
   (CreateInstance_existing_key exampleEnv [exampleFreshTrio] 7 [4, 5] [[2], [], []]
      FurniturePreference.Prefer (by decide)).1,
   (CreateInstance_existing_key exampleEnv [exampleFreshTrio] 7 [4, 5] [[2], [], []]
      FurniturePreference.Prefer (by decide)).2.1⟩

/-- C2: starting from the empty registry, after any finite sequence of
`CreateInstance` and `DestroyInstance` calls no two entries of the
live-instance list have the same `linkedQst`. -/
theorem registry_one_instance_per_key (env : Env) (calls : List RegistryCall) :
    (runCalls env [] calls).Pairwise (fun i j => i.linkedQst ≠ j.linkedQst) := by
  have h := keys_nodup_runCalls env calls [] (by simp)
  exact (List.pairwise_map).mp h

/-! ## Scene activation -/

/-- C3: if the scene is not compatible with the center's furniture-offset type,
or the resolver returns no assignment for the positions' fragments, then
`SetActiveScene` returns false and the instance state is the state it was
called on: `activeScene`, `assignments`, the `activeAssignment` cursor, the
positions with their `uniquePermutations` and `baseCoordinates` are all
unchanged. -/
theorem SetActiveScene_rejected (env : Env) (self : Instance) (a_scene : Scene)
    (h : env.IsCompatibleFurniture a_scene self.center.offset.type = false ∨
         env.FindAssignments a_scene (collectFragments self.positions) = []) :
    (SetActiveScene env self a_scene).value = false ∧
    (SetActiveScene env self a_scene).state = self := by
  unfold SetActiveScene
  by_cases hc : env.IsCompatibleFurniture a_scene self.center.offset.type = false
  · simp [hc]
  · rcases h with h | h
    · exact absurd h hc
    · simp [hc, h]

theorem SetActiveScene_rejected_witness :
    (exampleEnv.IsCompatibleFurniture 9 exampleFreshTrio.center.offset.type = false ∨
      exampleEnv.FindAssignments 9 (collectFragments exampleFreshTrio.positions) = []) ∧
    (SetActiveScene exampleEnv exampleFreshTrio 9).value = false ∧
    (SetActiveScene exampleEnv exampleFreshTrio 9).state = exampleFreshTrio :=
  ⟨Or.inl (by decide), SetActiveScene_rejected exampleEnv exampleFreshTrio 9 (Or.inl (by decide))⟩

/-- C4: for a furniture-compatible scene for which the resolver returns a
non-empty list `L`, `SetActiveScene` returns true, and afterwards
`assignments` is `L` in the same order, `activeScene` is that scene and the
`activeAssignment` cursor is at index 0, the first assignment of `L`. -/
theorem SetActiveScene_accepted (env : Env) (self : Instance) (a_scene : Scene)
    (L : List Assignment)
    (hcompat : env.IsCompatibleFurniture a_scene self.center.offset.type = true)
    (hfind : env.FindAssignments a_scene (collectFragments self.positions) = L)
    (hne : L ≠ []) :
    (SetActiveScene env self a_scene).value = true ∧
    (SetActiveScene env self a_scene).state.assignments = L ∧
    (SetActiveScene env self a_scene).state.activeScene = some a_scene ∧
    (SetActiveScene env self a_scene).state.activeAssignment = 0 ∧
    (SetActiveScene env self a_scene).state.assignments[
      (SetActiveScene env self a_scene).state.activeAssignment]? = L.head? := by
  unfold SetActiveScene
  cases L with
  | nil => exact absurd rfl hne
  | cons first rest => simp [hcompat, hfind]

theorem SetActiveScene_accepted_witness :
    (SetActiveScene exampleEnv exampleFreshTrio 1).value = true ∧
    (SetActiveScene exampleEnv exampleFreshTrio 1).state.assignments
      = [[1, 2, 3], [1, 3, 2], [2, 1, 3], [2, 3, 1], [3, 1, 2], [3, 2, 1]] ∧
    (SetActiveScene exampleEnv exampleFreshTrio 1).state.activeScene = some 1 ∧
    (SetActiveScene exampleEnv exampleFreshTrio 1).state.activeAssignment = 0 :=
  have h := SetActiveScene_accepted exampleEnv exampleFreshTrio 1
    [[1, 2, 3], [1, 3, 2], [2, 1, 3], [2, 3, 1], [3, 1, 2], [3, 2, 1]]
    (by decide) (by decide) (by decide)
  ⟨h.1, h.2.1, h.2.2.1, h.2.2.2.1⟩

theorem tallyActor_lt (counts : Actor → Nat) (actor key : Actor) (h : counts key < 256) :
    tallyActor counts actor key < 256 := by
  unfold tallyActor incrUInt8
  split_ifs
  · omega
  · exact h

theorem tallyPermutation_lt (permutation : Assignment) (key : Actor) :
    ∀ counts : Actor → Nat, counts key < 256 →
      (permutation.foldl tallyActor counts) key < 256 := by
  induction permutation with
  | nil => intro counts h; simpa using h
  | cons actor rest ih =>
    intro counts h
    exact ih (tallyActor counts actor) (tallyActor_lt counts actor key h)

theorem tallyPermutation_mod (permutation : Assignment) (key : Actor) :
    ∀ counts : Actor → Nat,
      (permutation.foldl tallyActor counts) key % 256
        = (counts key + permutation.count key) % 256 := by
  induction permutation with
  | nil => intro counts; simp
  | cons actor rest ih =>
    intro counts
    rw [List.foldl_cons, ih (tallyActor counts actor)]
    by_cases h : key = actor
    · subst h
      simp only [tallyActor, incrUInt8, if_true, List.count_cons_self]
      omega
    · simp only [tallyActor, h, if_false]
      rw [List.count_cons_of_ne h]

theorem tallyFold_spec (assignments : List Assignment) (key : Actor) :
    ∀ counts : Actor → Nat, counts key < 256 →
      (assignments.foldl (fun c permutation => permutation.foldl tallyActor c) counts) key
        = (counts key + occurrenceCount key assignments) % 256 := by
  induction assignments with
  | nil =>
    intro counts h
    simp [occurrenceCount]
    omega
  | cons permutation rest ih =>
    intro counts h
    have hlt := tallyPermutation_lt permutation key counts h
    have hmod := tallyPermutation_mod permutation key counts
    rw [List.foldl_cons, ih _ hlt]
    simp only [occurrenceCount, List.map_cons, List.sum_cons] at *
    omega

theorem tallyAssignments_eq (assignments : List Assignment) (key : Actor) :
    tallyAssignments assignments key = occurrenceCount key assignments % 256 := by
  unfold tallyAssignments
  rw [tallyFold_spec assignments key (fun _ => 0) (Nat.zero_lt_succ 255)]
  simp

/-- C5, evaluated on the thread registered for actors 1, 2, 3: its first
`SetActiveScene`, for the scene in which every actor fits every slot, succeeds
with the six bijections as assignments and leaves every position with
`uniquePermutations = 6`, the number of assignments, while each actor occupies
only 3 distinct slot indices across them. -/
theorem SetActiveScene_uniquePermutations_example :
    (CreateInstance exampleEnv [] 7 [1, 2, 3] [[1], [], []] FurniturePreference.Default).instances
      = [exampleFreshTrio] ∧
    (SetActiveScene exampleEnv exampleFreshTrio 1).value = true ∧
    (SetActiveScene exampleEnv exampleFreshTrio 1).state.assignments
      = [[1, 2, 3], [1, 3, 2], [2, 1, 3], [2, 3, 1], [3, 1, 2], [3, 2, 1]] ∧
    (SetActiveScene exampleEnv exampleFreshTrio 1).state.positions.map
      (fun p => (p.data.GetActor, p.uniquePermutations)) = [(1, 6), (2, 6), (3, 6)] ∧
    [1, 2, 3].map
      (fun a => distinctSlotCount a (SetActiveScene exampleEnv exampleFreshTrio 1).state.assignments)
      = [3, 3, 3] := by
  decide

/-! ## Permutation cycling -/

theorem seenAfter_nodup (a_actor : Actor) (visited : List Assignment) :
    ∀ seen : List Nat, seen.Nodup → (seenAfter a_actor seen visited).Nodup := by
  induction visited with
  | nil => intro seen h; simpa [seenAfter] using h
  | cons it rest ih =>
    intro seen h
    have := ih (seen.insert (it.indexOf a_actor)) h.insert
    simpa [seenAfter] using this

theorem mem_seenAfter (a_actor : Actor) (visited : List Assignment) :
    ∀ (seen : List Nat) (x : Nat),
      x ∈ seenAfter a_actor seen visited ↔
        x ∈ seen ∨ x ∈ visited.map (fun it => it.indexOf a_actor) := by
  induction visited with
  | nil => intro seen x; simp [seenAfter]
  | cons it rest ih =>
    intro seen x
    have h := ih (seen.insert (it.indexOf a_actor)) x
    have e : seenAfter a_actor seen (it :: rest)
        = seenAfter a_actor (seen.insert (it.indexOf a_actor)) rest := rfl
    rw [e, h, List.mem_insert_iff, List.map_cons, List.mem_cons]
    tauto

theorem seenAfter_length (a_actor : Actor) (visited : List Assignment) :
    (seenAfter a_actor [] visited).length
      = ((visited.map (fun it => it.indexOf a_actor)).dedup).length := by
  apply List.Perm.length_eq
  rw [List.perm_ext_iff_of_nodup (seenAfter_nodup a_actor visited [] List.nodup_nil)
    (List.nodup_dedup _)]
  intro x
  rw [mem_seenAfter, List.mem_dedup]
  simp

theorem toInt32_of_small (n : Nat) (h : n < 2147483648) : toInt32 (n : Int) = (n : Int) := by
  unfold toInt32
  omega

theorem currentPermutationScan_eq (a_actor : Actor) (c : Nat) (rest : List Assignment) :
    ∀ (i : Nat) (seen : List Nat), i ≤ c → c < i + rest.length →
      currentPermutationScan a_actor c rest i seen
        = some (toInt32 ((seenAfter a_actor seen (rest.take (c - i + 1))).length : Int)) := by
  induction rest with
  | nil => intro i seen h1 h2; simp at h2; omega
  | cons it rest ih =>
    intro i seen h1 h2
    by_cases hi : i = c
    · subst hi
      simp [currentPermutationScan, seenAfter]
    · have h3 : i + 1 ≤ c := by omega
      have h4 : c < i + 1 + rest.length := by simp at h2; omega
      have h5 : c - i + 1 = (c - (i + 1) + 1) + 1 := by omega
      have := ih (i + 1) (seen.insert (it.indexOf a_actor)) h3 h4
      rw [h5, List.take_succ_cons]
      simpa [currentPermutationScan, hi, seenAfter] using this

theorem permutationIndexAt_pos (a_actor : Actor) (assignments : List Assignment) (k : Nat)
    (h : assignments ≠ []) : 1 ≤ permutationIndexAt a_actor assignments k := by
  unfold permutationIndexAt
  cases assignments with
  | nil => exact absurd rfl h
  | cons it rest =>
    apply Nat.one_le_iff_ne_zero.mpr
    intro h0
    have := List.length_eq_zero.mp h0
    rw [List.dedup_eq_nil] at this
    simp at this

theorem permutationIndexAt_le (a_actor : Actor) (assignments : List Assignment) (k : Nat) :
    permutationIndexAt a_actor assignments k ≤ k + 1 := by
  unfold permutationIndexAt
  calc (((assignments.take (k + 1)).map (fun it => it.indexOf a_actor)).dedup).length
      ≤ ((assignments.take (k + 1)).map (fun it => it.indexOf a_actor)).length :=
        (List.dedup_sublist _).length_le
    _ = (assignments.take (k + 1)).length := List.length_map _ _
    _ ≤ k + 1 := List.length_take_le _ _

theorem GetCurrentPermutation_eq (self : Instance) (a_actor : Actor) (position : Position)
    (hbound : GetPosition self a_actor = some position)
    (hcursor : self.activeAssignment < self.assignments.length)
    (hsize : self.assignments.length < 2147483648) :
    GetCurrentPermutation self a_actor
      = Outcome.ok ((permutationIndexAt a_actor self.assignments self.activeAssignment : Int), []) := by
  unfold GetCurrentPermutation
  have hscan := currentPermutationScan_eq a_actor self.activeAssignment self.assignments 0 []
    (Nat.zero_le _) (by omega)
  have hle := permutationIndexAt_le a_actor self.assignments self.activeAssignment
  rw [hbound]
  simp only [hscan, Nat.sub_zero, seenAfter_length]
  rw [toInt32_of_small _ (by unfold permutationIndexAt at hle; omega)]
  rfl

theorem slotIndices_of_not_mem (a_actor : Actor) (it : Assignment) :
    ∀ i : Nat, a_actor ∉ it → slotIndices a_actor it i = [] := by
  induction it with
  | nil => intro i _; rfl
  | cons actor rest ih =>
    intro i h
    have h1 : actor ≠ a_actor := fun e => h (e ▸ List.mem_cons_self _ _)
    have h2 : a_actor ∉ rest := fun m => h (List.mem_cons_of_mem _ m)
    simp [slotIndices, h1, ih (i + 1) h2]

theorem slotIndices_of_count_one (a_actor : Actor) (it : Assignment) :
    ∀ i : Nat, it.count a_actor = 1 → slotIndices a_actor it i = [i + it.indexOf a_actor] := by
  induction it with
  | nil => intro i h; simp at h
  | cons actor rest ih =>
    intro i h
    by_cases he : actor = a_actor
    · subst he
      have h0 : rest.count actor = 0 := by simpa using h
      have hn : actor ∉ rest := List.count_eq_zero.mp h0
      simp [slotIndices, slotIndices_of_not_mem actor rest (i + 1) hn]
    · have h1 : rest.count a_actor = 1 := by
        rw [List.count_cons_of_ne (fun e => he e.symm)] at h
        exact h
      rw [List.indexOf_cons_ne _ he]
      simp only [slotIndices, he, if_false, ih (i + 1) h1]
      congr 1
      omega

theorem distinctSlotCount_eq (a_actor : Actor) (assignments : List Assignment)
    (honce : ∀ it ∈ assignments, it.count a_actor = 1) :
    distinctSlotCount a_actor assignments
      = ((assignments.map (fun it => it.indexOf a_actor)).dedup).length := by
  unfold distinctSlotCount
  have h : (assignments.map (fun permutation => slotIndices a_actor permutation 0)).flatten
      = assignments.map (fun it => it.indexOf a_actor) := by
    induction assignments with
    | nil => rfl
    | cons it rest ih =>
      have h1 := slotIndices_of_count_one a_actor it 0 (honce it (List.mem_cons_self _ _))
      have h2 := ih (fun x hx => honce x (List.mem_cons_of_mem _ hx))
      simp [h1, h2]
  rw [h]

theorem permutationIndexAt_eq_distinctSlotCount (a_actor : Actor) (assignments : List Assignment)
    (k : Nat) (honce : ∀ it ∈ assignments.take (k + 1), it.count a_actor = 1) :
    permutationIndexAt a_actor assignments k
      = distinctSlotCount a_actor (assignments.take (k + 1)) := by
  rw [distinctSlotCount_eq a_actor _ honce]
  rfl

theorem sizeEqInt32_iff (n T : Nat) (hn : n < 18446744073709551616)
    (hT : T < 18446744073709551616) : sizeEqInt32 n (T : Int) = true ↔ n = T := by
  unfold sizeEqInt32
  simp only [decide_eq_true_eq]
  omega

theorem nextPermutationScan_found (a_actor : Actor) (T : Nat) (hT : T < 18446744073709551616)
    (rest : List Assignment) :
    ∀ (i : Nat) (seen : List Nat) (j : Nat), (∀ it ∈ rest, a_actor ∈ it) → seen.length < T →
      j < rest.length → (seenAfter a_actor seen (rest.take (j + 1))).length = T →
      (∀ j2, j2 < j → (seenAfter a_actor seen (rest.take (j2 + 1))).length ≠ T) →
      nextPermutationScan a_actor (T : Int) rest i seen = ScanResult.found (i + j) := by
  induction rest with
  | nil => intro i seen j _ _ hj; simp at hj
  | cons it rest ih =>
    intro i seen j hmem hlt hj hT2 hmin
    have hin : a_actor ∈ it := hmem it (List.mem_cons_self _ _)
    have hidx : it.indexOf a_actor ≠ it.length := Nat.ne_of_lt (List.indexOf_lt_length.mpr hin)
    have hrest : ∀ x ∈ rest, a_actor ∈ x := fun x hx => hmem x (List.mem_cons_of_mem _ hx)
    have estep : ∀ n : Nat, seenAfter a_actor seen ((it :: rest).take (n + 1))
        = seenAfter a_actor (seen.insert (it.indexOf a_actor)) (rest.take n) := fun n => rfl
    by_cases hm : it.indexOf a_actor ∈ seen
    · have hins : seen.insert (it.indexOf a_actor) = seen := List.insert_of_mem hm
      cases j with
      | zero =>
        rw [estep 0, hins] at hT2
        simp [seenAfter] at hT2
        omega
      | succ j =>
        have hj2 : j < rest.length := by simpa using hj
        have h1 : (seenAfter a_actor seen (rest.take (j + 1))).length = T := by
          rw [estep (j + 1), hins] at hT2; exact hT2
        have h2 : ∀ j2, j2 < j → (seenAfter a_actor seen (rest.take (j2 + 1))).length ≠ T := by
          intro j2 hj3
          have := hmin (j2 + 1) (by omega)
          rw [estep (j2 + 1), hins] at this
          exact this
        have := ih (i + 1) seen j hrest hlt hj2 h1 h2
        simp only [nextPermutationScan, hidx, if_false, hm, not_true_eq_false]
        rw [this]
        congr 1
        omega
    · have hlen : (seen.insert (it.indexOf a_actor)).length = seen.length + 1 :=
        List.length_insert_of_not_mem hm
      cases j with
      | zero =>
        have h1 : (seen.insert (it.indexOf a_actor)).length = T := by
          rw [estep 0] at hT2
          simpa [seenAfter] using hT2
        have h2 : sizeEqInt32 (seen.insert (it.indexOf a_actor)).length (T : Int) = true :=
          (sizeEqInt32_iff _ T (by omega) hT).mpr h1
        simp only [nextPermutationScan, hidx, if_false, hm, not_false_eq_true, if_true, h2]
        rfl
      | succ j =>
        have hj2 : j < rest.length := by simpa using hj
        have h0 : (seen.insert (it.indexOf a_actor)).length ≠ T := by
          have := hmin 0 (by omega)
          rw [estep 0] at this
          simpa [seenAfter] using this
        have h1 : (seenAfter a_actor (seen.insert (it.indexOf a_actor))
            (rest.take (j + 1))).length = T := by
          rw [estep (j + 1)] at hT2; exact hT2
        have h2 : ∀ j2, j2 < j → (seenAfter a_actor (seen.insert (it.indexOf a_actor))
            (rest.take (j2 + 1))).length ≠ T := by
          intro j2 hj3
          have := hmin (j2 + 1) (by omega)
          rw [estep (j2 + 1)] at this
          exact this
        have h3 : sizeEqInt32 (seen.insert (it.indexOf a_actor)).length (T : Int) = false := by
          cases hb : sizeEqInt32 (seen.insert (it.indexOf a_actor)).length (T : Int) with
          | false => rfl
          | true => exact absurd ((sizeEqInt32_iff _ T (by omega) hT).mp hb) h0
        have := ih (i + 1) (seen.insert (it.indexOf a_actor)) j hrest (by omega) hj2 h1 h2
        simp only [nextPermutationScan, hidx, if_false, hm, not_false_eq_true, if_true, h3,
          Bool.false_eq_true, this]
        congr 1
        omega

theorem AdvanceScene_ok (env : Env) (self : Instance) (scene : Scene) (stage : Stage)
    (next : Option Stage) (hnext : next = some stage)
    (hscene : self.activeScene = some scene)
    (hnode : env.GetStageNodeType scene stage ≠ NodeType.None)
    (hcursor : self.activeAssignment < self.assignments.length) :
    ∃ r : Ret Unit, AdvanceScene env self next = Outcome.ok r ∧
      r.state.positions = self.positions ∧ r.state.assignments = self.assignments ∧
      r.state.activeAssignment = self.activeAssignment ∧
      r.state.activeScene = self.activeScene ∧ r.state.activeStage = next ∧
      r.state.baseCoordinates = self.baseCoordinates ∧ r.state.center = self.center ∧
      r.state.linkedQst = self.linkedQst := by
  subst hnext
  unfold AdvanceScene
  rw [hscene]
  simp only [hnode, if_false, List.getElem?_eq_getElem hcursor]
  exact ⟨_, rfl, rfl, rfl, rfl, rfl, rfl, rfl, rfl, rfl⟩

/-- C6, evaluated on the thread registered for actors 1, 2, 3, after its first
`SetActiveScene` and its first `AdvanceScene`: actor 1 has
`uniquePermutations = 6` and current permutation 1; six calls of
`SetNextPermutation` all return normally and end with the cursor at index 3
and current permutation 3, not 1. -/
theorem cyclePermutation_example :
    (CreateInstance exampleEnv [] 7 [1, 2, 3] [[1], [], []] FurniturePreference.Default).instances
      = [exampleFreshTrio] ∧
    (SetActiveScene exampleEnv exampleFreshTrio 1).value = true ∧
    (AdvanceScene exampleEnv (SetActiveScene exampleEnv exampleFreshTrio 1).state
      (some 10)).toOption.map Ret.state = some exampleRunningTrio ∧
    GetUniquePermutations exampleRunningTrio 1 = (6, []) ∧
    GetCurrentPermutation exampleRunningTrio 1 = Outcome.ok (1, []) ∧
    cyclePermutation exampleEnv 1 6 exampleRunningTrio
      = Outcome.ok { exampleRunningTrio with activeAssignment := 3 } ∧
    GetCurrentPermutation
      { exampleRunningTrio with activeAssignment := 3 } 1
      = Outcome.ok (3, []) := by
  decide

/-- C9: for a bound actor whose `uniquePermutations` is below 2,
`SetNextPermutation` returns normally with the instance state it was called
on, and the only thing it does is log an info line: no actor is placed and
`AdvanceScene` is not run. -/
theorem SetNextPermutation_no_alternative (env : Env) (self : Instance) (a_actor : Actor)
    (position : Position) (hbound : GetPosition self a_actor = some position)
    (hunique : position.uniquePermutations < 2) :
    SetNextPermutation env self a_actor
      = Outcome.ok { value := (), state := self,
                     events := [Event.log LogLevel.info LogMsg.noAlternativePermutations] } := by
  unfold SetNextPermutation
  simp [hbound, hunique]

theorem SetNextPermutation_no_alternative_witness :
    SetNextPermutation exampleEnv
        (exampleInstance [examplePosition 1 1, examplePosition 2 1] [[1, 2]] 0) 1
      = Outcome.ok { value := (),
                     state := exampleInstance [examplePosition 1 1, examplePosition 2 1] [[1, 2]] 0,
                     events := [Event.log LogLevel.info LogMsg.noAlternativePermutations] } :=
  SetNextPermutation_no_alternative exampleEnv
    (exampleInstance [examplePosition 1 1, examplePosition 2 1] [[1, 2]] 0) 1
    (examplePosition 1 1) (by decide) (by decide)

theorem findPosition_some_mem (positions : List Position) (a_actor : Actor)
    (position : Position) (h : findPosition positions a_actor = some position) :
    a_actor ∈ positions.map (fun p => p.data.GetActor) := by
  induction positions with
  | nil => simp [findPosition] at h
  | cons first rest ih =>
    by_cases he : first.data.GetActor = a_actor
    · simp [he]
    · simp only [findPosition, he, if_false] at h
      exact List.mem_cons_of_mem _ (ih h)

theorem count_eq_one_of_bijections (self : Instance) (a_actor : Actor) (position : Position)
    (hbound : GetPosition self a_actor = some position)
    (hbij : AssignmentsAreBijections self) :
    ∀ it ∈ self.assignments, it.count a_actor = 1 := by
  intro it hit
  have hmem : a_actor ∈ boundActors self :=
    findPosition_some_mem self.positions a_actor position hbound
  rw [(hbij.2 it hit).count_eq a_actor]
  exact List.count_eq_one_of_mem hbij.1 hmem

theorem GetCurrentPermutation_scan (self : Instance) (a_actor : Actor) (position : Position)
    (hbound : GetPosition self a_actor = some position)
    (hcursor : self.activeAssignment < self.assignments.length) :
    GetCurrentPermutation self a_actor
      = Outcome.ok
          (toInt32 (permutationIndexAt a_actor self.assignments self.activeAssignment : Int),
            []) := by
  unfold GetCurrentPermutation
  have hscan := currentPermutationScan_eq a_actor self.activeAssignment self.assignments 0 []
    (Nat.zero_le _) (by omega)
  rw [hbound]
  simp only [hscan, Nat.sub_zero, seenAfter_length]
  rfl

/-- C7: on an instance whose assignments are bijections of its bound actors,
with the cursor `c` pointing into `assignments`, for every actor bound to a
position (and a count that fits the `int32_t` result),
`GetCurrentPermutation` returns without raising and without logging, and its
result is the number of distinct slot indices the actor occupies in
`assignments[0..=c]`; that number is at least 1 and at most `c + 1`. -/
theorem GetCurrentPermutation_distinct_slots (self : Instance) (a_actor : Actor)
    (position : Position)
    (hbound : GetPosition self a_actor = some position)
    (hcursor : self.activeAssignment < self.assignments.length)
    (hbij : AssignmentsAreBijections self)
    (hfit : distinctSlotCount a_actor (self.assignments.take (self.activeAssignment + 1))
      < 2147483648) :
    GetCurrentPermutation self a_actor
      = Outcome.ok
          ((distinctSlotCount a_actor (self.assignments.take (self.activeAssignment + 1)) : Int),
            []) ∧
    1 ≤ distinctSlotCount a_actor (self.assignments.take (self.activeAssignment + 1)) ∧
    distinctSlotCount a_actor (self.assignments.take (self.activeAssignment + 1))
      ≤ self.activeAssignment + 1 := by
  have honce := count_eq_one_of_bijections self a_actor position hbound hbij
  have heq := permutationIndexAt_eq_distinctSlotCount a_actor self.assignments
    self.activeAssignment (fun it hit => honce it (List.mem_of_mem_take hit))
  have hne : self.assignments ≠ [] := by
    intro h
    rw [h] at hcursor
    simp at hcursor
  rw [← heq] at hfit ⊢
  refine ⟨?_, permutationIndexAt_pos _ _ _ hne, permutationIndexAt_le _ _ _⟩
  rw [GetCurrentPermutation_scan self a_actor position hbound hcursor,
    toInt32_of_small _ hfit]

theorem GetCurrentPermutation_distinct_slots_witness :
    AssignmentsAreBijections { exampleRunningTrio with activeAssignment := 3 } ∧
    distinctSlotCount 1
        (({ exampleRunningTrio with activeAssignment := 3 }).assignments.take
          (({ exampleRunningTrio with activeAssignment := 3 }).activeAssignment + 1)) = 3 ∧
    GetCurrentPermutation { exampleRunningTrio with activeAssignment := 3 } 1
      = Outcome.ok
          ((distinctSlotCount 1
            (({ exampleRunningTrio with activeAssignment := 3 }).assignments.take
              (({ exampleRunningTrio with activeAssignment := 3 }).activeAssignment + 1)) : Int),
            []) :=
  ⟨by decide, by decide,
   (GetCurrentPermutation_distinct_slots { exampleRunningTrio with activeAssignment := 3 } 1
      (examplePosition 1 6) (by decide) (by decide) (by decide) (by decide)).1⟩

/-- C10, as stated, fails: actor 1 is bound with `uniquePermutations = 2`, the
cursor is valid and actor 1 occurs in no assignment, and `SetNextPermutation`
returns normally, having logged one warning and changed nothing; it does not
end in a fault. -/
theorem SetNextPermutation_absent_actor_example :
    (GetPosition (exampleInstance [examplePosition 1 2] [[2, 3], [3, 2]] 0) 1)
      = some (examplePosition 1 2) ∧
    (∀ it ∈ (exampleInstance [examplePosition 1 2] [[2, 3], [3, 2]] 0).assignments, 1 ∉ it) ∧
    SetNextPermutation exampleEnv (exampleInstance [examplePosition 1 2] [[2, 3], [3, 2]] 0) 1
      = Outcome.ok { value := (),
                     state := exampleInstance [examplePosition 1 2] [[2, 3], [3, 2]] 0,
                     events := [Event.log LogLevel.warn LogMsg.actorNotPartOfAssignment] } ∧
    (∀ fault : Fault,
      SetNextPermutation exampleEnv (exampleInstance [examplePosition 1 2] [[2, 3], [3, 2]] 0) 1
        ≠ Outcome.fail fault) :=
  have e : SetNextPermutation exampleEnv
      (exampleInstance [examplePosition 1 2] [[2, 3], [3, 2]] 0) 1
      = Outcome.ok { value := (),
                     state := exampleInstance [examplePosition 1 2] [[2, 3], [3, 2]] 0,
                     events := [Event.log LogLevel.warn LogMsg.actorNotPartOfAssignment] } := by
    decide
  ⟨by decide, by decide, e, fun fault h => by rw [e] at h; cases h⟩

/-- C10, amended: for an instance with a valid cursor and an actor bound to a
position with `uniquePermutations >= 2` that occurs in no assignment,
`SetNextPermutation` returns normally: it logs the warning that the actor is
not part of the current assignment and leaves the instance state unchanged. -/
theorem SetNextPermutation_absent_actor (env : Env) (self : Instance) (a_actor : Actor)
    (position : Position) (hbound : GetPosition self a_actor = some position)
    (hunique : 2 ≤ position.uniquePermutations)
    (hcursor : self.activeAssignment < self.assignments.length)
    (habsent : ∀ it ∈ self.assignments, a_actor ∉ it) :
    SetNextPermutation env self a_actor
      = Outcome.ok { value := (), state := self,
                     events := [Event.log LogLevel.warn LogMsg.actorNotPartOfAssignment] } := by
  have hscan := currentPermutationScan_eq a_actor self.activeAssignment self.assignments 0 []
    (Nat.zero_le _) (by omega)
  have hu : ¬ position.uniquePermutations < 2 := by omega
  unfold SetNextPermutation GetCurrentPermutation
  simp only [hbound, hu, if_false, hscan]
  cases hl : self.assignments with
  | nil => rw [hl] at hcursor; simp at hcursor
  | cons it rest =>
    have hit : a_actor ∉ it := habsent it (by rw [hl]; exact List.mem_cons_self _ _)
    have hidx : it.indexOf a_actor = it.length := List.indexOf_eq_length.mpr hit
    simp [nextPermutationScan, hidx]

theorem SetNextPermutation_absent_actor_witness :
    SetNextPermutation exampleEnv (exampleInstance [examplePosition 4 2] [[2, 3], [3, 2]] 1) 4
      = Outcome.ok { value := (),
                     state := exampleInstance [examplePosition 4 2] [[2, 3], [3, 2]] 1,
                     events := [Event.log LogLevel.warn LogMsg.actorNotPartOfAssignment] } :=
  SetNextPermutation_absent_actor exampleEnv
    (exampleInstance [examplePosition 4 2] [[2, 3], [3, 2]] 1) 4 (examplePosition 4 2)
    (by decide) (by decide) (by decide) (by decide)

/-- C8, as stated, fails in three ways.  (1) On the running three-actor thread
after two calls of `SetNextPermutation`, with the cursor at index 3, actor 1
has `uniquePermutations = 6`, current permutation 3 and hence target 4, but
no index reaches 4 distinct slots: `SetNextPermutation` logs a warning, the
cursor stays and the current permutation is still 3.
(2) On the instance `CreateInstance` registers, right after its first
successful `SetActiveScene`, no stage is active yet and `SetNextPermutation`
ends in the assertion of `AdvanceScene`.  (3) When an assignment holds the
actor twice, the cursor goes to index 1 although index 0 already has 2
distinct slots of the actor. -/
theorem SetNextPermutation_counterexamples :
    (cyclePermutation exampleEnv 1 2 exampleRunningTrio
        = Outcome.ok { exampleRunningTrio with activeAssignment := 3 } ∧
      GetPosition { exampleRunningTrio with activeAssignment := 3 } 1
        = some (examplePosition 1 6) ∧
      (∀ it ∈ exampleRunningTrio.assignments, 1 ∈ it) ∧
      GetCurrentPermutation
          { exampleRunningTrio with activeAssignment := 3 } 1
        = Outcome.ok (3, []) ∧
      (∀ k, k < 6 →
        distinctSlotCount 1 (exampleRunningTrio.assignments.take (k + 1))
          ≠ 4) ∧
      SetNextPermutation exampleEnv
          { exampleRunningTrio with activeAssignment := 3 } 1
        = Outcome.ok
            { value := (),
              state := { exampleRunningTrio with activeAssignment := 3 },
              events := [Event.log LogLevel.warn LogMsg.noAlternativePermutations] }) ∧
    ((CreateInstance exampleEnv [] 7 [1, 2] [[2], [], []] FurniturePreference.Default).instances
        = [exampleFreshPair] ∧
      (SetActiveScene exampleEnv exampleFreshPair 2).value = true ∧
      (SetActiveScene exampleEnv exampleFreshPair 2).state.assignments = [[1, 2], [2, 1]] ∧
      GetUniquePermutations (SetActiveScene exampleEnv exampleFreshPair 2).state 1 = (2, []) ∧
      GetCurrentPermutation (SetActiveScene exampleEnv exampleFreshPair 2).state 1
        = Outcome.ok (1, []) ∧
      SetNextPermutation exampleEnv (SetActiveScene exampleEnv exampleFreshPair 2).state 1
        = Outcome.fail Fault.assertion) ∧
    (GetCurrentPermutation
          (exampleInstance [examplePosition 1 2, examplePosition 2 2] [[1, 1], [2, 1]] 0) 1
        = Outcome.ok (1, []) ∧
      distinctSlotCount 1 ([[1, 1], [2, 1]].take (0 + 1)) = 2 ∧
      SetNextPermutation exampleEnv
          (exampleInstance [examplePosition 1 2, examplePosition 2 2] [[1, 1], [2, 1]] 0) 1
        = Outcome.ok
            { value := (),
              state := exampleInstance [examplePosition 1 2, examplePosition 2 2] [[1, 1], [2, 1]] 1,
              events := placeActors exampleEnv
                  (exampleInstance [examplePosition 1 2, examplePosition 2 2] [[1, 1], [2, 1]]
                    1).baseCoordinates 1 10 [2, 1] 0
                ++ [Event.log LogLevel.info LogMsg.changedToPermutation] }) := by
  decide

/-- C8, amended: take an instance with a valid cursor, fewer than 2^31 - 1
assignments, an active scene and an active stage that is a node of it (the
precondition `AdvanceScene` asserts), and a bound actor that occurs exactly
once in every assignment and has `uniquePermutations >= 2`.  Let `current` be
what `GetCurrentPermutation` returns and `t = current + 1` if that is at most
`uniquePermutations`, else 1.  If some index has `t` distinct slot indices of
the actor across `assignments[0..=k]`, then `SetNextPermutation` returns
normally with the cursor at the first such index `k`, after which
`GetCurrentPermutation` returns `t`; `assignments`, `activeScene` and
`activeStage` are unchanged. -/
theorem SetNextPermutation_moves_cursor (env : Env) (self : Instance) (a_actor : Actor)
    (position : Position) (scene : Scene) (stage : Stage) (current t : Int)
    (hbound : GetPosition self a_actor = some position)
    (hcursor : self.activeAssignment < self.assignments.length)
    (hsize : self.assignments.length + 1 < 2147483648)
    (honce : ∀ it ∈ self.assignments, it.count a_actor = 1)
    (hunique : 2 ≤ position.uniquePermutations)
    (hscene : self.activeScene = some scene)
    (hstage : self.activeStage = some stage)
    (hnode : env.GetStageNodeType scene stage ≠ NodeType.None)
    (hcurrent : GetCurrentPermutation self a_actor = Outcome.ok (current, []))
    (ht : t = if current + 1 ≤ (position.uniquePermutations : Int) then current + 1 else 1)
    (hreach : ∃ k, k < self.assignments.length ∧
      (distinctSlotCount a_actor (self.assignments.take (k + 1)) : Int) = t) :
    ∃ (r : Ret Unit) (k : Nat),
      SetNextPermutation env self a_actor = Outcome.ok r ∧
      r.state.activeAssignment = k ∧ k < self.assignments.length ∧
      (distinctSlotCount a_actor (self.assignments.take (k + 1)) : Int) = t ∧
      (∀ j, j < k → (distinctSlotCount a_actor (self.assignments.take (j + 1)) : Int) ≠ t) ∧
      GetCurrentPermutation r.state a_actor = Outcome.ok (t, []) ∧
      r.state.assignments = self.assignments ∧
      r.state.activeScene = self.activeScene ∧
      r.state.activeStage = self.activeStage := by
  have hP := GetCurrentPermutation_eq self a_actor position hbound hcursor (by omega)
  have hPle := permutationIndexAt_le a_actor self.assignments self.activeAssignment
  have hcur : current = (permutationIndexAt a_actor self.assignments self.activeAssignment : Int) := by
    rw [hP] at hcurrent
    injection hcurrent with h
    injection h with h1 _
    exact h1.symm
  have htarget : nextTarget current position.uniquePermutations = t := by
    have hb : 0 ≤ current ∧ current ≤ (self.activeAssignment : Int) + 1 := by
      rw [hcur]; omega
    have h32 : toInt32 (current + 1) = current + 1 := by unfold toInt32; omega
    unfold nextTarget
    simp only [h32]
    rw [ht]
    split_ifs <;> omega
  obtain ⟨T, hTt, hTpos, hTlt⟩ : ∃ T : Nat, t = (T : Int) ∧ 1 ≤ T ∧ T < 2147483648 := by
    by_cases hle : current + 1 ≤ (position.uniquePermutations : Int)
    · refine ⟨permutationIndexAt a_actor self.assignments self.activeAssignment + 1, ?_, ?_, ?_⟩
      · rw [ht, if_pos hle, hcur]; push_cast; rfl
      · omega
      · omega
    · exact ⟨1, by rw [ht, if_neg hle]; rfl, by omega, by omega⟩
  have hD : ∀ k, distinctSlotCount a_actor (self.assignments.take (k + 1))
      = permutationIndexAt a_actor self.assignments k := fun k =>
    (permutationIndexAt_eq_distinctSlotCount a_actor _ k
      (fun it hit => honce it (List.mem_of_mem_take hit))).symm
  have hex : ∃ k, k < self.assignments.length ∧
      permutationIndexAt a_actor self.assignments k = T := by
    obtain ⟨k, hk, hkt⟩ := hreach
    refine ⟨k, hk, ?_⟩
    rw [hD k, hTt] at hkt
    exact_mod_cast hkt
  have hk0 := Nat.find_spec hex
  have hk0min : ∀ j, j < Nat.find hex →
      permutationIndexAt a_actor self.assignments j ≠ T := by
    intro j hj h
    exact Nat.find_min hex hj ⟨by omega, h⟩
  have hpresent : ∀ it ∈ self.assignments, a_actor ∈ it := by
    intro it hit
    have := honce it hit
    exact List.count_pos_iff.mp (by omega)
  have hscan := nextPermutationScan_found a_actor T (by omega) self.assignments 0 []
    (Nat.find hex) hpresent (by simpa using hTpos) hk0.1
    (by rw [seenAfter_length]; exact hk0.2)
    (fun j2 hj2 => by rw [seenAfter_length]; exact hk0min j2 hj2)
  rw [Nat.zero_add] at hscan
  obtain ⟨r, hr, hpos0, hasg0, hcur0, hsc0, hst0, _⟩ :=
    AdvanceScene_ok env { self with activeAssignment := Nat.find hex } scene stage
      self.activeStage hstage hscene hnode hk0.1
  have hpos : r.state.positions = self.positions := hpos0
  have hasg : r.state.assignments = self.assignments := hasg0
  have hcur2 : r.state.activeAssignment = Nat.find hex := hcur0
  have hsc : r.state.activeScene = self.activeScene := hsc0
  have hst : r.state.activeStage = self.activeStage := hst0
  have hu : ¬ position.uniquePermutations < 2 := by omega
  have hrun : SetNextPermutation env self a_actor
      = Outcome.ok { value := (), state := r.state,
                     events := [] ++ r.events
                       ++ [Event.log LogLevel.info LogMsg.changedToPermutation] } := by
    unfold SetNextPermutation
    simp only [hbound, hu, if_false, hP, ← hcur, htarget, hTt, hscan, hr]
  have hbound2 : GetPosition r.state a_actor = some position := by
    unfold GetPosition at hbound ⊢
    rw [hpos]
    exact hbound
  have hafter := GetCurrentPermutation_eq r.state a_actor position hbound2
    (by rw [hcur2, hasg]; exact hk0.1) (by rw [hasg]; omega)
  rw [hcur2, hasg, hk0.2] at hafter
  refine ⟨_, Nat.find hex, hrun, hcur2, hk0.1, ?_, ?_, ?_, hasg, hsc, hst⟩
  · rw [hD, hTt, hk0.2]
  · intro j hj
    rw [hD, hTt]
    exact_mod_cast hk0min j hj
  · rw [hafter, hTt]

theorem SetNextPermutation_moves_cursor_witness :
    ∃ (r : Ret Unit) (k : Nat),
      SetNextPermutation exampleEnv exampleRunningTrio 1
        = Outcome.ok r ∧
      r.state.activeAssignment = k ∧
      k < exampleRunningTrio.assignments.length ∧
      (distinctSlotCount 1
        (exampleRunningTrio.assignments.take (k + 1)) : Int) = 2 ∧
      (∀ j, j < k →
        (distinctSlotCount 1
          (exampleRunningTrio.assignments.take (j + 1)) : Int) ≠ 2) ∧
      GetCurrentPermutation r.state 1 = Outcome.ok (2, []) ∧
      r.state.assignments = exampleRunningTrio.assignments ∧
      r.state.activeScene = exampleRunningTrio.activeScene ∧
      r.state.activeStage = exampleRunningTrio.activeStage :=
  SetNextPermutation_moves_cursor exampleEnv exampleRunningTrio 1
    (examplePosition 1 6) 1 10 1 2 (by decide) (by decide) (by decide) (by decide) (by decide)
    (by decide) (by decide) (by decide) (by decide) (by decide) ⟨2, by decide, by decide⟩

/-! ## Registry: destruction -/

theorem GetInstance_DestroyInstance_other (instances : List Instance) (k other : Quest)
    (h : other ≠ k) :
    GetInstance (DestroyInstance instances k) other = GetInstance instances other := by
  induction instances with
  | nil => rfl
  | cons inst rest ih =>
    unfold DestroyInstance at ih ⊢
    by_cases hk : inst.linkedQst = k
    · have hne : ¬ k = other := fun e => h e.symm
      simp [List.filter_cons, hk, GetInstance, hne, ih]
    · by_cases ho : inst.linkedQst = other
      · simp [List.filter_cons, GetInstance, ho, h]
      · simp [List.filter_cons, hk, GetInstance, ho, ih]

/-- C15: after `DestroyInstance k`, `GetInstance k` finds nothing and
`GetInstance` of every other key finds the instance it found before; the
list that remains consists of exactly the instances owned by other keys, in
their previous order; and when no instance is owned by `k` the list is
unchanged. -/
theorem DestroyInstance_spec (instances : List Instance) (k : Quest) :
    GetInstance (DestroyInstance instances k) k = none ∧
    (∀ other : Quest, other ≠ k →
      GetInstance (DestroyInstance instances k) other = GetInstance instances other) ∧
    (DestroyInstance instances k).Sublist instances ∧
    (∀ inst : Instance, inst ∈ DestroyInstance instances k ↔
      inst ∈ instances ∧ inst.linkedQst ≠ k) ∧
    (GetInstance instances k = none → DestroyInstance instances k = instances) := by
  refine ⟨?_, ?_, ?_, ?_, ?_⟩
  · rw [GetInstance_eq_none_iff]
    unfold DestroyInstance
    simp [List.mem_map, List.mem_filter]
  · intro other h
    exact GetInstance_DestroyInstance_other instances k other h
  · exact List.filter_sublist instances
  · intro inst
    unfold DestroyInstance
    simp [List.mem_filter]
  · intro h
    rw [GetInstance_eq_none_iff] at h
    unfold DestroyInstance
    rw [List.filter_eq_self]
    intro inst hin
    have : inst.linkedQst ≠ k := fun e => h (e ▸ List.mem_map_of_mem Instance.linkedQst hin)
    simpa using this

theorem DestroyInstance_spec_witness :
    GetInstance (DestroyInstance [exampleFreshTrio, { exampleFreshPair with linkedQst := 8 }] 7) 7
      = none ∧
    GetInstance (DestroyInstance [exampleFreshTrio, { exampleFreshPair with linkedQst := 8 }] 7) 8
      = GetInstance [exampleFreshTrio, { exampleFreshPair with linkedQst := 8 }] 8 ∧
    DestroyInstance [exampleFreshTrio, { exampleFreshPair with linkedQst := 8 }] 9
      = [exampleFreshTrio, { exampleFreshPair with linkedQst := 8 }] :=
  ⟨(DestroyInstance_spec [exampleFreshTrio, { exampleFreshPair with linkedQst := 8 }] 7).1,
   (DestroyInstance_spec [exampleFreshTrio, { exampleFreshPair with linkedQst := 8 }] 7).2.1 8
     (by decide),
   (DestroyInstance_spec [exampleFreshTrio, { exampleFreshPair with linkedQst := 8 }] 9).2.2.2.2
     (by decide)⟩

/-! ## Re-anchoring -/

/-- C14: `ReplaceCenterRef` called with the reference that is the center's
anchor returns false with the instance state it was called on (center,
`baseCoordinates`, `activeStage` and the cursor included) and emits nothing:
no actor is placed and `AdvanceScene` is not run. -/
theorem ReplaceCenterRef_same_reference (env : Env) (self : Instance) :
    ReplaceCenterRef env self self.center.ref
      = Outcome.ok { value := false, state := self, events := [] } := by
  unfold ReplaceCenterRef
  simp

/-! ## Calls for an actor that is not bound -/

/-- C16: for an actor bound to none of the positions, `GetExpression` and
`GetVoice` return none, `IsGhostMode` returns false, `GetUniquePermutations`
and `GetCurrentPermutation` return 0, and `SetExpression`, `SetVoice`,
`SetGhostMode` and `SetNextPermutation` return with the instance state they
were called on; every one of them returns normally, after one log line. -/
theorem unbound_actor_calls (env : Env) (self : Instance) (a_actor : Actor)
    (a_expression : Option Expression) (a_voice : Option Voice) (a_ghostMode : Bool)
    (hunbound : GetPosition self a_actor = none) :
    GetExpression self a_actor
      = (none, [Event.log LogLevel.warn LogMsg.actorNotPartOfScene]) ∧
    GetVoice self a_actor = (none, [Event.log LogLevel.warn LogMsg.actorNotPartOfScene]) ∧
    IsGhostMode self a_actor = (false, [Event.log LogLevel.warn LogMsg.actorNotPartOfScene]) ∧
    GetUniquePermutations self a_actor
      = (0, [Event.log LogLevel.warn LogMsg.actorNotPartOfScene]) ∧
    GetCurrentPermutation self a_actor
      = Outcome.ok (0, [Event.log LogLevel.error LogMsg.actorNotPartOfScene]) ∧
    SetExpression self a_actor a_expression
      = { value := (), state := self,
          events := [Event.log LogLevel.warn LogMsg.actorNotPartOfScene] } ∧
    SetVoice self a_actor a_voice
      = { value := (), state := self,
          events := [Event.log LogLevel.warn LogMsg.actorNotPartOfScene] } ∧
    SetGhostMode env self a_actor a_ghostMode
      = { value := (), state := self,
          events := [Event.log LogLevel.warn LogMsg.actorNotPartOfScene] } ∧
    SetNextPermutation env self a_actor
      = Outcome.ok { value := (), state := self,
                     events := [Event.log LogLevel.error LogMsg.actorNotPartOfScene] } := by
  unfold GetExpression GetVoice IsGhostMode GetUniquePermutations GetCurrentPermutation
    SetExpression SetVoice SetGhostMode SetNextPermutation
  simp [hunbound]

theorem unbound_actor_calls_witness :
    GetPosition exampleRunningTrio 4 = none ∧
    GetCurrentPermutation exampleRunningTrio 4
      = Outcome.ok (0, [Event.log LogLevel.error LogMsg.actorNotPartOfScene]) ∧
    SetNextPermutation exampleEnv exampleRunningTrio 4
      = Outcome.ok { value := (), state := exampleRunningTrio,
                     events := [Event.log LogLevel.error LogMsg.actorNotPartOfScene] } :=
  have h := unbound_actor_calls exampleEnv exampleRunningTrio 4 (some 1) (some 1) true
    (by decide)
  ⟨by decide, h.2.2.2.2.1, h.2.2.2.2.2.2.2.2⟩

/-! ## The tally of scene activation -/

theorem occurrenceCount_of_once (a_actor : Actor) (assignments : List Assignment)
    (honce : ∀ it ∈ assignments, it.count a_actor = 1) :
    occurrenceCount a_actor assignments = assignments.length := by
  unfold occurrenceCount
  induction assignments with
  | nil => rfl
  | cons it rest ih =>
    have h1 := honce it (List.mem_cons_self _ _)
    have h2 := ih (fun x hx => honce x (List.mem_cons_of_mem _ hx))
    simp only [List.map_cons, List.sum_cons, List.length_cons, h1, h2]
    omega

theorem SetActiveScene_success_state (env : Env) (self : Instance) (a_scene : Scene)
    (hok : (SetActiveScene env self a_scene).value = true) :
    (SetActiveScene env self a_scene).state.assignments
      = env.FindAssignments a_scene (collectFragments self.positions) ∧
    (SetActiveScene env self a_scene).state.positions
      = self.positions.map (fun p =>
          { p with
            uniquePermutations := tallyAssignments
              (env.FindAssignments a_scene (collectFragments self.positions)) p.data.GetActor })
      := by
  unfold SetActiveScene at hok ⊢
  by_cases hc : env.IsCompatibleFurniture a_scene self.center.offset.type = false
  · simp [hc] at hok
  · by_cases he : (env.FindAssignments a_scene (collectFragments self.positions)).isEmpty = true
    · simp [hc, he] at hok
    · simp [hc, he]

/-- C17: after a successful `SetActiveScene` the positions are bound to the
same actors as before, and each position's `uniquePermutations` is the total
number of occurrences of its actor over all slots of all new assignments,
reduced modulo 256; so for an actor that appears exactly once in each of the
`m` new assignments it is `m mod 256`, whatever slots the actor occupies. -/
theorem SetActiveScene_uniquePermutations_tally (env : Env) (self : Instance) (a_scene : Scene)
    (hok : (SetActiveScene env self a_scene).value = true) :
    (SetActiveScene env self a_scene).state.positions.map (fun p => p.data)
      = self.positions.map (fun p => p.data) ∧
    (∀ p ∈ (SetActiveScene env self a_scene).state.positions,
      p.uniquePermutations
        = occurrenceCount p.data.GetActor (SetActiveScene env self a_scene).state.assignments
            % 256) ∧
    (∀ p ∈ (SetActiveScene env self a_scene).state.positions,
      (∀ it ∈ (SetActiveScene env self a_scene).state.assignments,
        it.count p.data.GetActor = 1) →
      p.uniquePermutations = (SetActiveScene env self a_scene).state.assignments.length % 256) := by
  obtain ⟨hasg, hpos⟩ := SetActiveScene_success_state env self a_scene hok
  have htally : ∀ p ∈ (SetActiveScene env self a_scene).state.positions,
      p.uniquePermutations
        = occurrenceCount p.data.GetActor (SetActiveScene env self a_scene).state.assignments
            % 256 := by
    intro p hp
    rw [hpos, List.mem_map] at hp
    obtain ⟨q, _, hq⟩ := hp
    rw [hasg, ← hq]
    exact tallyAssignments_eq _ _
  refine ⟨?_, htally, ?_⟩
  · rw [hpos, List.map_map]
    rfl
  · intro p hp honce
    rw [htally p hp, occurrenceCount_of_once _ _ honce]

theorem SetActiveScene_uniquePermutations_tally_witness :
    (SetActiveScene exampleEnv exampleFreshTrio 1).value = true ∧
    (examplePosition 2 6).uniquePermutations
      = occurrenceCount (examplePosition 2 6).data.GetActor
          (SetActiveScene exampleEnv exampleFreshTrio 1).state.assignments % 256 ∧
    (examplePosition 2 6).uniquePermutations
      = (SetActiveScene exampleEnv exampleFreshTrio 1).state.assignments.length % 256 :=
  have h := SetActiveScene_uniquePermutations_tally exampleEnv exampleFreshTrio 1 (by decide)
  ⟨by decide, h.2.1 (examplePosition 2 6) (by decide),
    h.2.2 (examplePosition 2 6) (by decide) (by decide)⟩

/-! ## Stage advancement -/

theorem placedAt_append (first second : List Event) :
    placedAt (first ++ second) = placedAt first ++ placedAt second := by
  induction first with
  | nil => rfl
  | cons event rest ih => cases event <;> simp [placedAt, ih]

theorem placedAt_placeActors (env : Env) (baseCoordinates : Coordinate) (scene : Scene)
    (stage : Stage) (actors : List Actor) :
    ∀ i : Nat, placedAt (placeActors env baseCoordinates scene stage actors i)
      = stageCoordinates env baseCoordinates stage actors i := by
  induction actors with
  | nil => intro i; rfl
  | cons actor rest ih =>
    intro i
    simp [placeActors, placedAt, stageCoordinates, ih (i + 1)]

theorem AdvanceScene_frame (env : Env) (self : Instance) (next : Option Stage) (r : Ret Unit)
    (h : AdvanceScene env self next = Outcome.ok r) :
    r.state.activeScene = self.activeScene ∧ r.state.assignments = self.assignments ∧
    r.state.activeAssignment = self.activeAssignment ∧ r.state.positions = self.positions ∧
    r.state.center = self.center ∧ r.state.baseCoordinates = self.baseCoordinates ∧
    r.state.activeStage = next ∧ self.activeAssignment < self.assignments.length := by
  unfold AdvanceScene at h
  cases hs : self.activeScene with
  | none => simp [hs] at h
  | some scene =>
    cases next with
    | none => simp [hs] at h
    | some stage =>
      simp only [hs] at h
      by_cases hn : env.GetStageNodeType scene stage = NodeType.None
      · simp [hn] at h
      · simp only [hn, if_false] at h
        cases ha : self.assignments[self.activeAssignment]? with
        | none => simp [ha] at h
        | some actors =>
          have hlt : self.activeAssignment < self.assignments.length := by
            obtain ⟨hlt, _⟩ := List.getElem?_eq_some.mp ha
            exact hlt
          simp only [ha] at h
          injection h with h
          subst h
          exact ⟨hs.symm ▸ rfl, rfl, rfl, rfl, rfl, rfl, rfl, hlt⟩

theorem AdvanceScene_placed (env : Env) (self : Instance) (scene : Scene) (stage : Stage)
    (actors : Assignment) (hscene : self.activeScene = some scene)
    (hnode : env.GetStageNodeType scene stage ≠ NodeType.None)
    (hactors : self.assignments[self.activeAssignment]? = some actors) :
    ∃ r : Ret Unit, AdvanceScene env self (some stage) = Outcome.ok r ∧
      r.state = { self with
        niInstance := some (match self.niInstance with
          | none => env.NiRegister self.linkedQst actors scene
          | some handle => handle),
        activeStage := some stage } ∧
      placedAt r.events = stageCoordinates env self.baseCoordinates stage actors 0 := by
  unfold AdvanceScene
  rw [hscene]
  simp only [hnode, if_false, hactors]
  refine ⟨_, rfl, ?_, ?_⟩
  · cases self.niInstance <;> rfl
  · cases self.niInstance <;> cases env.ControlsMenu self.linkedQst <;>
      simp [placedAt_append, placedAt, placedAt_placeActors]

/-- C12: on an instance that satisfies the cursor invariant and has an active
scene, for a stage that is a node of that scene, `AdvanceScene` called twice
in a row returns normally both times; the first call changes neither
`baseCoordinates` nor `assignments` nor the cursor, both calls put the actor
of every slot `i` of the active assignment at the offset of the stage's
position `i` applied to the same `baseCoordinates`, after each call
`activeStage` is the stage, and the second call leaves the state as the
first left it. -/
theorem AdvanceScene_twice (env : Env) (self : Instance) (scene : Scene) (stage : Stage)
    (hinv : InstanceInvariant self) (hscene : self.activeScene = some scene)
    (hnode : env.GetStageNodeType scene stage ≠ NodeType.None) :
    ∃ (first second : Ret Unit) (actors : Assignment),
      self.assignments[self.activeAssignment]? = some actors ∧
      AdvanceScene env self (some stage) = Outcome.ok first ∧
      AdvanceScene env first.state (some stage) = Outcome.ok second ∧
      first.state.baseCoordinates = self.baseCoordinates ∧
      first.state.assignments = self.assignments ∧
      first.state.activeAssignment = self.activeAssignment ∧
      placedAt first.events = stageCoordinates env self.baseCoordinates stage actors 0 ∧
      placedAt second.events = stageCoordinates env self.baseCoordinates stage actors 0 ∧
      first.state.activeStage = some stage ∧
      second.state.activeStage = some stage ∧
      second.state = first.state := by
  have hcursor : self.activeAssignment < self.assignments.length :=
    (hinv (by rw [hscene]; rfl)).2
  have hactors := List.getElem?_eq_getElem hcursor
  obtain ⟨first, hfirst, hstate1, hplaced1⟩ :=
    AdvanceScene_placed env self scene stage _ hscene hnode hactors
  have hscene1 : first.state.activeScene = some scene := by rw [hstate1]; exact hscene
  have hactors1 : first.state.assignments[first.state.activeAssignment]?
      = some (self.assignments[self.activeAssignment]) := by rw [hstate1]; exact hactors
  obtain ⟨second, hsecond, hstate2, hplaced2⟩ :=
    AdvanceScene_placed env first.state scene stage _ hscene1 hnode hactors1
  have hbase : first.state.baseCoordinates = self.baseCoordinates := by rw [hstate1]
  refine ⟨first, second, _, hactors, hfirst, hsecond, hbase, by rw [hstate1], by rw [hstate1],
    hplaced1, by rw [hplaced2, hbase], by rw [hstate1], by rw [hstate2], ?_⟩
  rw [hstate2, hstate1]

theorem AdvanceScene_twice_witness :
    ∃ (first second : Ret Unit) (actors : Assignment),
      exampleRunningTrio.assignments[exampleRunningTrio.activeAssignment]? = some actors ∧
      AdvanceScene exampleEnv exampleRunningTrio (some 11) = Outcome.ok first ∧
      AdvanceScene exampleEnv first.state (some 11) = Outcome.ok second ∧
      first.state.baseCoordinates = exampleRunningTrio.baseCoordinates ∧
      first.state.assignments = exampleRunningTrio.assignments ∧
      first.state.activeAssignment = exampleRunningTrio.activeAssignment ∧
      placedAt first.events
        = stageCoordinates exampleEnv exampleRunningTrio.baseCoordinates 11 actors 0 ∧
      placedAt second.events
        = stageCoordinates exampleEnv exampleRunningTrio.baseCoordinates 11 actors 0 ∧
      first.state.activeStage = some 11 ∧
      second.state.activeStage = some 11 ∧
      second.state = first.state :=
  AdvanceScene_twice exampleEnv exampleRunningTrio 1 11 (by decide) (by decide) (by decide)

/-! ## The cursor invariant -/

theorem nextPermutationScan_found_lt (a_actor : Actor) (target : Int) (rest : List Assignment) :
    ∀ (i : Nat) (seen : List Nat) (k : Nat),
      nextPermutationScan a_actor target rest i seen = ScanResult.found k →
      i ≤ k ∧ k < i + rest.length := by
  induction rest with
  | nil => intro i seen k h; simp [nextPermutationScan] at h
  | cons it rest ih =>
    intro i seen k h
    unfold nextPermutationScan at h
    by_cases hidx : it.indexOf a_actor = it.length
    · simp [hidx] at h
    · by_cases hm : it.indexOf a_actor ∈ seen
      · simp only [hidx, if_false, hm, not_true_eq_false] at h
        have := ih (i + 1) seen k h
        simp only [List.length_cons]
        omega
      · simp only [hidx, if_false, hm, not_false_eq_true, if_true] at h
        cases hb : sizeEqInt32 (seen.insert (it.indexOf a_actor)).length target with
        | true =>
          simp only [hb, if_true] at h
          injection h with h
          simp only [List.length_cons]
          omega
        | false =>
          simp only [hb, Bool.false_eq_true, if_false] at h
          have := ih (i + 1) _ k h
          simp only [List.length_cons]
          omega

theorem SetActiveScene_invariant (env : Env) (self : Instance) (a_scene : Scene)
    (hinv : InstanceInvariant self) :
    InstanceInvariant (SetActiveScene env self a_scene).state := by
  unfold SetActiveScene
  by_cases hc : env.IsCompatibleFurniture a_scene self.center.offset.type = false
  · simpa [hc] using hinv
  · cases hl : env.FindAssignments a_scene (collectFragments self.positions) with
    | nil => simpa [hc, hl] using hinv
    | cons first rest => simp [hc, hl, InstanceInvariant]

theorem AdvanceScene_invariant (env : Env) (self : Instance) (next : Option Stage)
    (r : Ret Unit) (h : AdvanceScene env self next = Outcome.ok r) :
    InstanceInvariant r.state := by
  obtain ⟨_, hasg, hcur, _, _, _, _, hlt⟩ := AdvanceScene_frame env self next r h
  intro _
  rw [hasg, hcur]
  exact ⟨fun e => by rw [e] at hlt; simp at hlt, hlt⟩

theorem SetNextPermutation_invariant (env : Env) (self : Instance) (a_actor : Actor)
    (r : Ret Unit) (hinv : InstanceInvariant self)
    (h : SetNextPermutation env self a_actor = Outcome.ok r) :
    InstanceInvariant r.state := by
  unfold SetNextPermutation at h
  cases hpos : GetPosition self a_actor with
  | none =>
    simp only [hpos] at h
    injection h with h
    subst h
    exact hinv
  | some position =>
    simp only [hpos] at h
    by_cases hu : position.uniquePermutations < 2
    · simp only [hu, if_true] at h
      injection h with h
      subst h
      exact hinv
    · simp only [hu, if_false] at h
      cases hcur : GetCurrentPermutation self a_actor with
      | fail fault => simp [hcur] at h
      | ok res =>
        obtain ⟨current, logged⟩ := res
        simp only [hcur] at h
        cases hscan : nextPermutationScan a_actor
            (nextTarget current position.uniquePermutations) self.assignments 0 [] with
        | notInAssignment =>
          simp only [hscan] at h
          injection h with h
          subst h
          exact hinv
        | exhausted =>
          simp only [hscan] at h
          injection h with h
          subst h
          exact hinv
        | found k =>
          simp only [hscan] at h
          cases hadv : AdvanceScene env { self with activeAssignment := k } self.activeStage with
          | fail fault => simp [hadv] at h
          | ok advanced =>
            simp only [hadv] at h
            injection h with h
            subst h
            exact AdvanceScene_invariant env _ _ advanced hadv

theorem recenter_invariant (env : Env) (self : Instance) (logged : List Event) (r : Ret Bool)
    (h : recenter env self logged = Outcome.ok r) : InstanceInvariant r.state := by
  unfold recenter at h
  cases hs : self.activeScene with
  | none => simp [hs] at h
  | some scene =>
    simp only [hs] at h
    split at h
    · cases h
    · rename_i advanced hadv
      injection h with h
      subst h
      exact AdvanceScene_invariant env _ _ advanced hadv

theorem ReplaceCenterRef_invariant (env : Env) (self : Instance) (a_ref : Ref) (r : Ret Bool)
    (hinv : InstanceInvariant self) (h : ReplaceCenterRef env self a_ref = Outcome.ok r) :
    InstanceInvariant r.state := by
  unfold ReplaceCenterRef at h
  by_cases hsame : a_ref = self.center.ref
  · simp only [hsame, if_true] at h
    injection h with h
    subst h
    exact hinv
  · simp only [hsame, if_false] at h
    cases hd : env.GetFurnitureDetails self.center.ref with
    | none =>
      simp only [hd] at h
      by_cases ht : env.TypeIsNone self.center.offset.type = false
      · simp only [ht, if_true] at h
        injection h with h
        subst h
        exact hinv
      · simp only [ht, if_false] at h
        exact recenter_invariant env _ _ r h
    | some found =>
      simp only [hd] at h
      cases hb : env.GetClosestCoordinatesInBound found a_ref self.center.offset.type
          self.center.ref with
      | nil =>
        simp only [hb] at h
        injection h with h
        subst h
        exact hinv
      | cons front others =>
        simp only [hb] at h
        exact recenter_invariant env _ _ r h

theorem applyInstanceCall_invariant (env : Env) (self next : Instance) (call : InstanceCall)
    (hinv : InstanceInvariant self) (h : applyInstanceCall env self call = Outcome.ok next) :
    InstanceInvariant next := by
  cases call with
  | setActiveScene a_scene =>
    simp only [applyInstanceCall] at h
    injection h with h
    subst h
    exact SetActiveScene_invariant env self a_scene hinv
  | advanceScene a_nextStage =>
    simp only [applyInstanceCall] at h
    split at h
    · rename_i r hr
      injection h with h
      subst h
      exact AdvanceScene_invariant env self a_nextStage r hr
    · cases h
  | setNextPermutation a_actor =>
    simp only [applyInstanceCall] at h
    split at h
    · rename_i r hr
      injection h with h
      subst h
      exact SetNextPermutation_invariant env self a_actor r hinv hr
    · cases h
  | replaceCenterRef a_ref =>
    simp only [applyInstanceCall] at h
    split at h
    · rename_i r hr
      injection h with h
      subst h
      exact ReplaceCenterRef_invariant env self a_ref r hinv hr
    · cases h

theorem runInstanceCalls_invariant (env : Env) (calls : List InstanceCall) :
    ∀ self final : Instance, InstanceInvariant self →
      runInstanceCalls env self calls = Outcome.ok final → InstanceInvariant final := by
  induction calls with
  | nil =>
    intro self final hinv h
    simp only [runInstanceCalls] at h
    injection h with h
    subst h
    exact hinv
  | cons call rest ih =>
    intro self final hinv h
    simp only [runInstanceCalls] at h
    split at h
    · rename_i next hnext
      exact ih next final (applyInstanceCall_invariant env self next call hinv hnext) h
    · cases h

/-- C11: the cursor invariant (if `activeScene` is set, `assignments` is
non-empty and `activeAssignment` points at one of its elements) holds in
every state without an active scene, and when it holds before a call it holds
after it: after `SetActiveScene`, accepted or rejected, and after every
`AdvanceScene`, `SetNextPermutation` and `ReplaceCenterRef` that returns;
hence also after every sequence of such calls. -/
theorem cursor_invariant_preserved (env : Env) (self : Instance)
    (hinv : InstanceInvariant self) :
    (∀ unset : Instance, unset.activeScene = none → InstanceInvariant unset) ∧
    (∀ a_scene : Scene, InstanceInvariant (SetActiveScene env self a_scene).state) ∧
    (∀ (a_nextStage : Option Stage) (r : Ret Unit),
      AdvanceScene env self a_nextStage = Outcome.ok r → InstanceInvariant r.state) ∧
    (∀ (a_actor : Actor) (r : Ret Unit),
      SetNextPermutation env self a_actor = Outcome.ok r → InstanceInvariant r.state) ∧
    (∀ (a_ref : Ref) (r : Ret Bool),
      ReplaceCenterRef env self a_ref = Outcome.ok r → InstanceInvariant r.state) ∧
    (∀ (calls : List InstanceCall) (final : Instance),
      runInstanceCalls env self calls = Outcome.ok final → InstanceInvariant final) := by
  refine ⟨?_, ?_, ?_, ?_, ?_, ?_⟩
  · intro unset hunset hset
    rw [hunset] at hset
    cases hset
  · intro a_scene
    exact SetActiveScene_invariant env self a_scene hinv
  · intro a_nextStage r h
    exact AdvanceScene_invariant env self a_nextStage r h
  · intro a_actor r h
    exact SetNextPermutation_invariant env self a_actor r hinv h
  · intro a_ref r h
    exact ReplaceCenterRef_invariant env self a_ref r hinv h
  · intro calls final h
    exact runInstanceCalls_invariant env calls self final hinv h

theorem cursor_invariant_preserved_witness :
    InstanceInvariant exampleFreshTrio ∧
    InstanceInvariant (SetActiveScene exampleEnv exampleFreshTrio 9).state ∧
    InstanceInvariant (SetActiveScene exampleEnv exampleFreshTrio 1).state ∧
    InstanceInvariant { exampleRunningTrio with activeAssignment := 3 } :=
  have h := cursor_invariant_preserved exampleEnv exampleFreshTrio (by decide)
  ⟨by decide, h.2.1 9, h.2.1 1,
   h.2.2.2.2.2
     [InstanceCall.setActiveScene 9, InstanceCall.setActiveScene 1,
      InstanceCall.advanceScene (some 10), InstanceCall.setNextPermutation 1,
      InstanceCall.setNextPermutation 1, InstanceCall.setNextPermutation 1,
      InstanceCall.replaceCenterRef 50]
     { exampleRunningTrio with activeAssignment := 3 } (by decide)⟩

/-! ## Re-anchoring onto a reference without furniture details -/

theorem ReplaceCenterRef_current_anchor_unclassified (env : Env) (self : Instance) (a_ref : Ref)
    (hother : a_ref ≠ self.center.ref)
    (hdetails : env.GetFurnitureDetails self.center.ref = none)
    (htype : env.TypeIsNone self.center.offset.type = false) :
    ReplaceCenterRef env self a_ref
      = Outcome.ok
          { value := false,
            state := { self with center := { self.center with details := none } },
            events := [Event.log LogLevel.warn LogMsg.mismatchedFurnitureType] } := by
  unfold ReplaceCenterRef
  simp [hother, hdetails, htype]

/-- C13, evaluated on a thread staged on the furniture 50 (family 3, details
in the registry): the new anchor 60 differs from 50 and has no furniture
details, the current offset type is not none, and `ReplaceCenterRef 60`
returns true, moves the center to 60, recomputes `baseCoordinates` and places
both actors anew. -/
theorem ReplaceCenterRef_unclassified_anchor_example :
    (CreateInstance exampleFurnitureEnv [] 7 [1, 2] [[2], [], []]
        FurniturePreference.Prefer).instances
      = [exampleFurnitureFresh 7 [1, 2] [[2], [], []] FurniturePreference.Prefer] ∧
    (SetActiveScene exampleFurnitureEnv
        (exampleFurnitureFresh 7 [1, 2] [[2], [], []] FurniturePreference.Prefer) 2).value
      = true ∧
    (AdvanceScene exampleFurnitureEnv
        (SetActiveScene exampleFurnitureEnv
          (exampleFurnitureFresh 7 [1, 2] [[2], [], []] FurniturePreference.Prefer) 2).state
        (some 10)).toOption.map Ret.state = some exampleFurnitureThread ∧
    exampleFurnitureThread.center
      = { ref := 50,
          offset := { type := 3, offset := { x := 0, y := 0, z := 0, rotation := 0 } },
          details := some 1 } ∧
    exampleFurnitureThread.baseCoordinates = { x := 50, y := 0, z := 0, rotation := 0 } ∧
    (60 : Ref) ≠ exampleFurnitureThread.center.ref ∧
    exampleFurnitureEnv.GetFurnitureDetails 60 = none ∧
    exampleFurnitureEnv.TypeIsNone exampleFurnitureThread.center.offset.type = false ∧
    (ReplaceCenterRef exampleFurnitureEnv exampleFurnitureThread 60).toOption.map
        (fun r => (r.value, r.state.center, r.state.baseCoordinates, placedAt r.events))
      = some (true,
          { ref := 60,
            offset := { type := 3, offset := { x := 60, y := 0, z := 0, rotation := 0 } },
            details := none },
          { x := 120, y := 0, z := 0, rotation := 0 },
          [(1, { x := 130, y := 0, z := 0, rotation := 0 }),
           (2, { x := 130, y := 1, z := 0, rotation := 0 })]) := by
  decide

/-! ## Where the assignment invariant comes from -/

theorem collectFragments_eq (positions : List Position) :
    collectFragments positions = positions.map (fun p => p.data) := by
  have h : ∀ (l : List Position) (acc : List ActorFragment),
      l.foldl (fun acc it => acc ++ [it.data]) acc = acc ++ l.map (fun p => p.data) := by
    intro l
    induction l with
    | nil => intro acc; simp
    | cons first rest ih => intro acc; simp [ih]
  unfold collectFragments
  simpa using h positions []

theorem SetActiveScene_bijections (env : Env) (self : Instance) (a_scene : Scene)
    (hok : (SetActiveScene env self a_scene).value = true)
    (hdistinct : (boundActors self).Nodup)
    (hresolver : ∀ it ∈ env.FindAssignments a_scene (collectFragments self.positions),
      List.Perm it ((collectFragments self.positions).map ActorFragment.GetActor)) :
    AssignmentsAreBijections (SetActiveScene env self a_scene).state := by
  obtain ⟨hasg, hpos⟩ := SetActiveScene_success_state env self a_scene hok
  have hactors : boundActors (SetActiveScene env self a_scene).state = boundActors self := by
    unfold boundActors
    rw [hpos, List.map_map]
    rfl
  have hfrag : (collectFragments self.positions).map ActorFragment.GetActor = boundActors self := by
    rw [collectFragments_eq, List.map_map]
    rfl
  refine ⟨by rw [hactors]; exact hdistinct, ?_⟩
  intro it hit
  rw [hasg] at hit
  rw [hactors, ← hfrag]
  exact hresolver it hit

end Thread
